import Mathlib

/-!
Shallow embedding, in Lean 4, of the rules engine of a miniatures-wargame
simulator written in JavaScript (army-list parser, attack-sequence resolver,
wound application, morale, objective control, turn state machine, movement).

Conventions of the embedding:
* JavaScript numbers are modelled as `Nat`/`Int` where the source only ever
  holds integers, and as `ℚ` for board coordinates (the source performs exact
  real arithmetic in our model; floating point rounding is out of scope).
* Die rolls are drawn from an explicit stream `List Nat`; an exhausted stream
  yields 1 (all theorems quantify over arbitrary streams, so the default is
  irrelevant).
* JavaScript dictionary values that may be `true` or a number (the parsed
  special-rule flags) are modelled by `JsVal`; `JsVal.truthy` and `JsVal.toNum`
  mirror JS truthiness and numeric coercion.
* Logging, floating text, canvas rendering and jQuery calls are side effects
  on collaborators outside the rules core; they are elided.
-/

namespace OPR

/-- Value of a parsed special-rule flag: JS stores `true` or a number. -/
inductive JsVal where
  | bool (b : Bool)
  | num (n : Nat)
deriving Repr, DecidableEq

/-- JS truthiness of a flag value (`true` is truthy, a number is truthy iff nonzero). -/
def JsVal.truthy : JsVal → Bool
  | .bool b => b
  | .num n => n != 0

/-- JS numeric coercion of a flag value (`true` coerces to 1, `false` to 0). -/
def JsVal.toNum : JsVal → Nat
  | .bool b => if b then 1 else 0
  | .num n => n

/-- Mirror of the JS idiom `v || d` in a numeric position: the value of `v`
when it is present and truthy, else the default `d`. -/
def jsOrNum (v : Option JsVal) (d : Nat) : Nat :=
  match v with
  | some x => if x.truthy then x.toNum else d
  | none => d

/-- Lookup of a key in a parsed weapon-flag dictionary (insertion-ordered
association list, as built by `parseWeapons`). -/
def wlookup (flags : List (String × JsVal)) (k : String) : Option JsVal :=
  (flags.find? (fun p => p.1 == k)).map (·.2)

/-- JS truthiness of `flags?.k`. -/
def wtruthy (flags : List (String × JsVal)) (k : String) : Bool :=
  match wlookup flags k with
  | some v => v.truthy
  | none => false

/-- Numeric value of `flags.k` under JS coercion (0 when absent; only read in
the source at places guarded by truthiness). -/
def wnum (flags : List (String × JsVal)) (k : String) : Nat :=
  match wlookup flags k with
  | some v => v.toNum
  | none => 0

/-- Weapon, as produced by `parseWeapons` (parser.js): name, amount of copies,
range in inches (0 = melee), attacks per copy, armor penetration, and the
free-form special-flag dictionary. -/
structure Weapon where
  amount : Nat
  name : String
  range : Nat
  attacks : Nat
  ap : Int
  special : List (String × JsVal)
deriving Repr, DecidableEq

/-- Special rules of a sub-unit, the typed flags set by `parseRule`
(parser.js, `SPECIAL_RULE_DEFINITIONS`). Numeric rules hold a `JsVal` because
the source stores `true` when the rule is written without an argument. -/
structure SpecialRules where
  hero : Bool := false
  relentless : Bool := false
  medicalTraining : Bool := false
  shieldWall : Bool := false
  goodShot : Bool := false
  fast : Bool := false
  robot : Bool := false
  scout : Bool := false
  strider : Bool := false
  fearless : Bool := false
  selfRepair : Bool := false
  ambush : Bool := false
  companyStandard : Bool := false
  takeAim : Bool := false
  holdTheLine : Bool := false
  stealth : Bool := false
  flying : Bool := false
  precisionShots : Bool := false
  tough : Option JsVal := none
  deadly : Option JsVal := none
  fear : Option JsVal := none
  impact : Option JsVal := none
  caster : Option JsVal := none
  transport : Option JsVal := none
  furious : Bool := false
  furiousOriginal : Bool := false
  battleDrills : Bool := false
deriving Repr, DecidableEq

/-- Sub-unit definition parsed from an army-list header plus equipment line
(`parseUnit` in parser.js). -/
structure SubUnitDefinition where
  name : String := ""
  models : Nat := 0
  quality : Nat := 6
  defense : Nat := 6
  points : Nat := 0
  special : SpecialRules := {}
  weapons : List Weapon := []
  keywords : List String := []
deriving Repr, DecidableEq

instance : Inhabited SubUnitDefinition := ⟨{}⟩

/-- Action context passed to the attack sequence. The source sometimes passes
the action *string* instead of an object (`aiExecuteShootAction` receives the
raw action name from the Hold branch of `aiPerformDecidedAction`), and line 82
of attack_sequence_logic.js compares `actionContext == "Hold"` for that case. -/
inductive ActionContext where
  | ctx (isMelee isCharge isHold : Bool)
  | str (s : String)
deriving Repr, DecidableEq

/-- Reading of `actionContext.isCharge` (undefined, hence false, on a string). -/
def ActionContext.chargeProp : ActionContext → Bool
  | .ctx _ c _ => c
  | .str _ => false

/-- Reading of `actionContext.isHold` (undefined, hence false, on a string). -/
def ActionContext.holdProp : ActionContext → Bool
  | .ctx _ _ h => h
  | .str _ => false

/-- Mirror of `actionContext.isHold || actionContext == "Hold"`
(attack_sequence_logic.js line 82). -/
def ActionContext.holdish : ActionContext → Bool
  | .ctx _ _ h => h
  | .str s => s == "Hold"

/-- One hit produced by the hit-roll loop of `gameRollAttackSequence`:
its final AP, the die roll that produced it, and the flags the source attaches
(`fromExtra` for bonus hits, `fromBlast` for blast multiplication). -/
structure Hit where
  ap : Int
  roll : Nat
  fromExtra : Bool := false
  fromBlast : Bool := false
deriving Repr, DecidableEq

/-- Hit-threshold computation of `gameRollAttackSequence`
(attack_sequence_logic.js lines 35 and 45-52): base quality, lowered to at
most 4 by Good Shot on a ranged Hold, then lowered by 1 with a floor of 2 by
Reliable; both adjustments are skipped for a fatigued melee attacker. -/
def computeQTarget (quality : Nat) (goodShot isMelee isHold reliable fatigued : Bool) : Nat :=
  if !(isMelee && fatigued) then
    let q1 := if goodShot && !isMelee && isHold then min quality 4 else quality
    if reliable then max 2 (q1 - 1) else q1
  else quality

/-- Hit decision of `gameRollAttackSequence` (attack_sequence_logic.js lines
101-108): a roll of 1 misses unless the weapon is Reliable; a fatigued melee
attacker hits only on 6; otherwise a hit is roll = 6 or roll ≥ threshold. -/
def hitOccurred (roll : Nat) (reliable isMelee fatigued : Bool) (qTarget : Nat) : Bool :=
  if roll == 1 && !reliable then false
  else if isMelee && fatigued then roll == 6
  else roll == 6 || roll ≥ qTarget

/-- Effective AP of one hit (attack_sequence_logic.js lines 95-99): Rending
boosts AP to at least 4 when the roll was a natural hit by quality-or-6, and
Precision Shots adds its bonus. -/
def hitAPFor (w : Weapon) (roll qTarget : Nat) (precisionAPBonus : Int) : Int :=
  let currentAP :=
    if wtruthy w.special "rending" && (roll == 6 || (roll > 1 && roll ≥ qTarget)) then
      max w.ap 4
    else w.ap
  currentAP + precisionAPBonus

/-- Extra-hit threshold (attack_sequence_logic.js lines 66-91): Furious or
Battle Drills on a melee charge (5 for double Furious, else 6), Relentless on
Hold overwrites with 6, Flux raises to at least 6. -/
def computeExtraHitThreshold (group : List SubUnitDefinition) (attacker : SpecialRules)
    (w : Weapon) (actionContext : ActionContext) (isMelee : Bool) : Nat :=
  let t1 : Nat :=
    if actionContext.chargeProp && isMelee then
      let groupHasBattleDrills := group.any (fun u => u.special.battleDrills)
      if groupHasBattleDrills && attacker.furiousOriginal then 5
      else if attacker.furious || groupHasBattleDrills then 6
      else 0
    else 0
  let t2 := if actionContext.holdish && attacker.relentless then 6 else t1
  if wtruthy w.special "flux" then max t2 6 else t2

/-- Hit-roll loop of `gameRollAttackSequence` (attack_sequence_logic.js lines
93-118), consuming one die per attack and producing the raw hit list. -/
def rollToHit (w : Weapon) (qTarget : Nat) (isMelee fatigued : Bool)
    (precisionAPBonus : Int) (extraThr : Nat) : Nat → List Nat → List Hit × List Nat
  | 0, dice => ([], dice)
  | n + 1, dice =>
    let roll := dice.headD 1
    let rest := dice.tail
    let finalAP := hitAPFor w roll qTarget precisionAPBonus
    let rel := wtruthy w.special "reliable"
    let hits :=
      if hitOccurred roll rel isMelee fatigued qTarget then
        if extraThr > 0 && roll ≥ extraThr then
          [{ ap := finalAP, roll := roll }, { ap := finalAP, roll := roll, fromExtra := true }]
        else [{ ap := finalAP, roll := roll }]
      else []
    let (more, dice') := rollToHit w qTarget isMelee fatigued precisionAPBonus extraThr n rest
    (hits ++ more, dice')

/-- Blast step of `gameRollAttackSequence` (attack_sequence_logic.js lines
129-147): when the weapon has Blast and the defender has a model, every hit is
replaced by `min(blast, defenderModels)` copies, each flagged `fromBlast`. -/
def applyBlast (w : Weapon) (defenderClusterModelsForBlast : Int) (hits : List Hit) : List Hit :=
  if wtruthy w.special "blast" && defenderClusterModelsForBlast > 0 then
    let blastMultiplier := min (wnum w.special "blast") defenderClusterModelsForBlast.toNat
    (hits.map (fun h => List.replicate blastMultiplier { h with fromBlast := true })).flatten
  else hits

/-- Save threshold for one hit (attack_sequence_logic.js lines 150-162):
`max(2, defense - shieldWall - cover + AP)`, where the cover bonus is dropped
for a blast-flagged hit. -/
def saveTargetFor (baseD : Nat) (shieldWall inCover : Bool) (hit : Hit) : Int :=
  let shieldWBonus : Int := if shieldWall then 1 else 0
  let coverBonus : Int := if inCover then 1 else 0
  let effectiveCoverForSave := if hit.fromBlast then 0 else coverBonus
  max 2 ((baseD : Int) - shieldWBonus - effectiveCoverForSave + hit.ap)

/-- Save failure condition (attack_sequence_logic.js line 165): a roll of 1
always fails, otherwise failure is the negation of (roll = 6 or roll ≥ target). -/
def saveRollFails (saveRoll : Nat) (saveTarget : Int) : Bool :=
  saveRoll == 1 || !(saveRoll == 6 || (saveRoll : Int) ≥ saveTarget)

/-- Save loop of `gameRollAttackSequence` (attack_sequence_logic.js lines
157-174), consuming one die per hit and returning the number of failed saves. -/
def resolveSaves (baseD : Nat) (shieldWall inCover : Bool) :
    List Hit → List Nat → Nat × List Nat
  | [], dice => (0, dice)
  | hit :: hits, dice =>
    let saveRoll := dice.headD 1
    let rest := dice.tail
    let (more, dice') := resolveSaves baseD shieldWall inCover hits rest
    if saveRollFails saveRoll (saveTargetFor baseD shieldWall inCover hit) then
      (more + 1, dice')
    else (more, dice')

/-- Per-point prevention loop shared by Medical Training and Self-Repair
(attack_sequence_logic.js lines 203-211 and 230-238): roll one die per point
of the packet and count the rolls satisfying the rule's predicate. -/
def preventRolls (pred : Nat → Bool) : Nat → List Nat → Nat × List Nat
  | 0, dice => (0, dice)
  | n + 1, dice =>
    let r := dice.headD 1
    let rest := dice.tail
    let (more, dice') := preventRolls pred n rest
    (more + (if pred r then 1 else 0), dice')

/-- Defensive mitigation pass (attack_sequence_logic.js lines 196-248): for
each wound packet, prevent one point per successful roll and keep the packet
only if points survive. -/
def mitigatePackets (pred : Nat → Bool) : List Nat → List Nat → List Nat × List Nat
  | [], dice => ([], dice)
  | w :: ws, dice =>
    let (preventedCount, dice') := preventRolls pred w dice
    let (kept, dice'') := mitigatePackets pred ws dice'
    let after := w - preventedCount
    if after > 0 then (after :: kept, dice'') else (kept, dice'')

/-- Result of one attack sequence: the wound packets and their total. -/
structure AttackResult where
  woundPackets : List Nat
  totalDamageInflicted : Nat
deriving Repr, DecidableEq

/-- Full attack sequence `gameRollAttackSequence` (attack_sequence_logic.js):
hit rolls, blast multiplication, save rolls, Deadly packet sizing, Medical
Training and Self-Repair mitigation. The combat log is elided. -/
def gameRollAttackSequence (attackerSubUnit : SubUnitDefinition) (w : Weapon)
    (defenderSubUnit : SubUnitDefinition) (defenderClusterModelsForBlast : Int)
    (actionContext : ActionContext) (isTargetInCover isAttackerFatigued : Bool)
    (group : List SubUnitDefinition) (dice : List Nat) : AttackResult × List Nat :=
  let isMelee := w.range == 0
  let reliable := wtruthy w.special "reliable"
  let qTarget := computeQTarget attackerSubUnit.quality attackerSubUnit.special.goodShot
    isMelee actionContext.holdProp reliable isAttackerFatigued
  let precisionAPBonus : Int :=
    if attackerSubUnit.special.precisionShots && !isMelee then 1 else 0
  let diceCount := w.amount * w.attacks
  let extraThr := computeExtraHitThreshold group attackerSubUnit.special w actionContext isMelee
  let (rawHits, dice1) := rollToHit w qTarget isMelee isAttackerFatigued precisionAPBonus
    extraThr diceCount dice
  let hitsAfterBlast := applyBlast w defenderClusterModelsForBlast rawHits
  let (saveFailCount, dice2) := resolveSaves defenderSubUnit.defense
    defenderSubUnit.special.shieldWall isTargetInCover hitsAfterBlast dice1
  let woundPackets0 :=
    if wtruthy w.special "deadly" then List.replicate saveFailCount (wnum w.special "deadly")
    else List.replicate saveFailCount 1
  let (packets1, dice3) :=
    if defenderSubUnit.special.medicalTraining && woundPackets0.length != 0 then
      mitigatePackets (fun r => r ≥ 5) woundPackets0 dice2
    else (woundPackets0, dice2)
  let (packets2, dice4) :=
    if defenderSubUnit.special.selfRepair && packets1.length != 0 then
      mitigatePackets (fun r => r == 6) packets1 dice3
    else (packets1, dice3)
  ({ woundPackets := packets2, totalDamageInflicted := packets2.sum }, dice4)

/-! Runtime cluster state (unit_factory.js, game_core_logic.js). -/

/-- One side of the battle. -/
inductive Side where
  | attackers
  | defenders
deriving Repr, DecidableEq

/-- A model token's position on the board, in inches. -/
structure Model where
  x : ℚ
  y : ℚ
deriving Repr, DecidableEq

/-- Per-sub-unit mutable state created by `createUnitCluster`
(unit_factory.js lines 395-403). -/
structure SubUnitState where
  originalSubUnitData : SubUnitDefinition
  currentModelsInSubUnit : Nat
  woundsOnCurrentModelInSubUnit : Nat
  woundsPerModel : Nat
  effectiveWeapons : List Weapon
  isHeroSubUnit : Bool
deriving Repr, DecidableEq

/-- Placeholder sub-unit state used as the `getD` default of the embedding;
it has no surviving model, so an out-of-range read never acts. -/
def emptySubUnitState : SubUnitState :=
  ⟨{}, 0, 0, 0, [], false⟩

instance : Inhabited SubUnitState :=
  ⟨emptySubUnitState⟩

/-- Hit points left on the sub-unit's current (partially damaged) model. -/
def SubUnitState.remainingHP (s : SubUnitState) : Int :=
  (s.woundsPerModel : Int) - (s.woundsOnCurrentModelInSubUnit : Int)

/-- Runtime battlefield cluster (unit_factory.js `createUnitCluster`,
lines 404-425). The `img` field and the display name are rendering
concerns and are elided; `unitGroupSubUnits` is `unitGroupData.subUnits`. -/
structure UnitCluster where
  id : Nat
  side : Side
  cxIn : ℚ
  cyIn : ℚ
  originXIn : ℚ
  originYIn : ℚ
  wIn : ℚ
  hIn : ℚ
  models : List Model
  unitGroupSubUnits : List SubUnitDefinition
  activated : Bool
  shaken : Bool
  hasFoughtInMeleeThisRound : Bool
  totalModels : Nat
  currentModels : Int
  subUnitStates : List SubUnitState
deriving Repr, DecidableEq

/-- Fixed per-model base diameter in inches (globals.js: `DIA_IN = 1.26`). -/
def DIA_IN : ℚ := 126 / 100

/-- Mirror of `Math.ceil(Math.sqrt(n))` on a natural number. -/
def jsCeilSqrt (n : Nat) : Nat :=
  if Nat.sqrt n * Nat.sqrt n == n then Nat.sqrt n else Nat.sqrt n + 1

/-- Stable insertion of `x` after every element `y` of an already sorted list
with `le y x`; combined with `stableSortBy` this reproduces the stable sort
of JavaScript `Array.prototype.sort`. -/
def stableInsertBy (le : α → α → Bool) (x : α) : List α → List α
  | [] => [x]
  | y :: ys => if le y x then y :: stableInsertBy le x ys else x :: y :: ys

/-- Stable sort (insertion sort over the traversal order), modelling JS
`Array.prototype.sort` with comparator `a - b` rendered as `le a b`. -/
def stableSortBy (le : α → α → Bool) (l : List α) : List α :=
  l.foldl (fun acc x => stableInsertBy le x acc) []

/-- Weapon goodness score (unit_factory.js `calculateWeaponGoodness`):
`attacks × amount × blast × deadly × (1 + 0.25 × AP)`. The dynamic `typeof`
guards of the source always pass in this typed embedding. -/
def calculateWeaponGoodness (w : Weapon) : ℚ :=
  let totalAttacks : ℚ := (w.attacks : ℚ) * (w.amount : ℚ)
  let blast : ℚ := (jsOrNum (wlookup w.special "blast") 1 : ℚ)
  let deadly : ℚ := (jsOrNum (wlookup w.special "deadly") 1 : ℚ)
  let apMultiplier : ℚ := 1 + (w.ap : ℚ) * (25 / 100)
  totalAttacks * blast * deadly * apMultiplier

/-- Deduplication key used by `getUpdatedWeaponLoadoutForSubUnit`
(unit_factory.js lines 336-338: `JSON.stringify` of name, range, attacks, AP
and the special dictionary). -/
def weaponKey (w : Weapon) : String × Nat × Nat × Int × List (String × JsVal) :=
  (w.name, w.range, w.attacks, w.ap, w.special)

/-- Re-merge of surviving individual weapons into a deduplicated loadout with
combined counts (unit_factory.js lines 334-350); insertion order of the JS
`Map` is preserved. -/
def dedupWeapons (l : List Weapon) : List Weapon :=
  let grouped := l.foldl
    (fun (acc : List (Weapon × Nat)) w =>
      if acc.any (fun p => weaponKey p.1 == weaponKey w) then
        acc.map (fun p => if weaponKey p.1 == weaponKey w then (p.1, p.2 + 1) else p)
      else acc ++ [(w, 1)])
    []
  grouped.map (fun p => { p.1 with amount := p.2 })

/-- Effective weapon loadout of a sub-unit after casualties (unit_factory.js
`getUpdatedWeaponLoadoutForSubUnit`): enumerate every weapon copy, sort by
goodness descending, round-robin over virtual model slots, keep the
highest-total slots, and re-merge. -/
def getUpdatedWeaponLoadoutForSubUnit (sus : SubUnitState) : List Weapon :=
  let currentModels := sus.currentModelsInSubUnit
  let originalModels := sus.originalSubUnitData.models
  let originalWeapons := sus.originalSubUnitData.weapons
  if currentModels ≤ 0 then []
  else if currentModels ≥ originalModels then originalWeapons
  else
    let allIndividualWeapons :=
      (originalWeapons.map (fun spec =>
        List.replicate spec.amount
          (let w := { spec with amount := 1 }
           (w, calculateWeaponGoodness w)))).flatten
    let sorted := stableSortBy (fun a b => b.2 ≤ a.2) allIndividualWeapons
    let virtualLoadouts := (List.range originalModels).map (fun modelIdx =>
      let weapons := ((sorted.enum.filter
        (fun p => p.1 % originalModels == modelIdx)).map (·.2))
      (weapons, (weapons.map (·.2)).sum))
    let sortedLoadouts := stableSortBy (fun a b => a.2 ≤ b.2) virtualLoadouts
    let keptLoadouts := sortedLoadouts.drop (originalModels - currentModels)
    let finalWeapons := (keptLoadouts.map (fun loadout => loadout.1.map (·.1))).flatten
    dedupWeapons finalWeapons

/-- Recompute of the cluster's footprint and model grid from its current model
count (renderer.js `updateClusterCircles`); the offscreen image redraw and the
render call are elided. -/
def updateClusterCircles (cluster : UnitCluster) : UnitCluster :=
  let numModels := cluster.currentModels
  if numModels ≤ 0 then cluster
  else
    let n := numModels.toNat
    let cols := jsCeilSqrt n
    let newModels := (List.range n).map (fun i =>
      { x := cluster.originXIn + ((i % cols : Nat) : ℚ) * DIA_IN + DIA_IN / 2,
        y := cluster.originYIn + ((i / cols : Nat) : ℚ) * DIA_IN + DIA_IN / 2 : Model })
    { cluster with
        wIn := (cols : ℚ) * DIA_IN,
        hIn := (((n + cols - 1) / cols : Nat) : ℚ) * DIA_IN,
        models := newModels }

/-! Wound application (game_core_logic.js `applyWoundsToCluster`). -/

/-- Argument of `applyWoundsToCluster`: a packet array or a single number that
stands for that many 1-wound packets (the source checks `Array.isArray`). -/
inductive WoundArg where
  | num (n : Nat)
  | arr (l : List Nat)
deriving Repr, DecidableEq

/-- Allocation order over sub-unit indices (game_core_logic.js lines
1852-1859): surviving non-hero sub-units sorted by wounds-per-model ascending,
then surviving hero sub-units likewise. -/
def allocationOrder (states : List SubUnitState) : List Nat :=
  let idx := List.range states.length
  let alive := fun i => (states.getD i default).currentModelsInSubUnit > 0
  let isHero := fun i => (states.getD i default).isHeroSubUnit
  let key := fun i => (states.getD i default).woundsPerModel
  let le := fun a b => decide (key a ≤ key b)
  stableSortBy le (idx.filter (fun i => !isHero i && alive i)) ++
    stableSortBy le (idx.filter (fun i => isHero i && alive i))

/-- Post-packet loadout refresh (game_core_logic.js lines 1884-1889): a
multi-model sub-unit that has lost models gets its effective weapons
recomputed. -/
def refreshLoadout (s : SubUnitState) : SubUnitState :=
  if s.originalSubUnitData.models > 1 &&
      s.currentModelsInSubUnit < s.originalSubUnitData.models then
    { s with effectiveWeapons := getUpdatedWeaponLoadoutForSubUnit s }
  else s

/-- Application of one wound packet (the body of the `forEach` in
game_core_logic.js lines 1861-1892): walk the allocation order, skip emptied
sub-units, and on the first live one either kill a model (packet ≥ remaining
hit points) or accumulate the packet onto the current model. -/
def applyPacketTo (states : List SubUnitState) (currentModels : Int) (packet : Nat) :
    List Nat → List SubUnitState × Int
  | [] => (states, currentModels)
  | i :: rest =>
    if (states.getD i default).currentModelsInSubUnit ≤ 0 then
      applyPacketTo states currentModels packet rest
    else if (packet : Int) ≥ (states.getD i default).remainingHP then
      (states.set i (refreshLoadout
        { states.getD i default with
            currentModelsInSubUnit := (states.getD i default).currentModelsInSubUnit - 1,
            woundsOnCurrentModelInSubUnit := 0 }),
       currentModels - 1)
    else
      (states.set i (refreshLoadout
        { states.getD i default with
            woundsOnCurrentModelInSubUnit :=
              (states.getD i default).woundsOnCurrentModelInSubUnit + packet }),
       currentModels)

/-- Wound application `applyWoundsToCluster` (game_core_logic.js lines
1845-1906): expand a numeric argument into 1-wound packets, allocate each
packet in order, clamp the cluster model count at 0, and refresh the model
grid while the cluster survives. The models-killed count and log are elided. -/
def applyWoundsToCluster (targetCluster : UnitCluster) (packets : WoundArg) : UnitCluster :=
  let woundPackets :=
    match packets with
    | .arr l => l
    | .num n => List.replicate n 1
  let allocation := allocationOrder targetCluster.subUnitStates
  let stepped := woundPackets.foldl
    (fun (acc : List SubUnitState × Int) packet => applyPacketTo acc.1 acc.2 packet allocation)
    (targetCluster.subUnitStates, targetCluster.currentModels)
  let cm := max 0 stepped.2
  let updated := { targetCluster with subUnitStates := stepped.1, currentModels := cm }
  if cm > 0 then updateClusterCircles updated else updated

/-- Sum of surviving models over a cluster's sub-unit states. -/
def sumSubUnitModels (c : UnitCluster) : Int :=
  (c.subUnitStates.map (fun s => (s.currentModelsInSubUnit : Int))).sum

/-! Geometry helpers (geometry_helpers.js). The source compares
`Math.hypot(dx, dy)` with a bound; since `hypot` is the nonnegative Euclidean
norm, `hypot(dx, dy) ≤ b` is equivalent to `0 ≤ b ∧ dx² + dy² ≤ b²` and
`hypot(dx, dy) < b` to `0 < b ∧ dx² + dy² < b²`, which is how this embedding
states the comparisons exactly over ℚ. -/

/-- Effective radius of a cluster (geometry_helpers.js `getEffectiveRadius`);
the JS truthiness guard on `wIn`/`hIn` reads 0 as absent. -/
def getEffectiveRadius (cluster : UnitCluster) : ℚ :=
  if cluster.wIn == 0 || cluster.hIn == 0 then DIA_IN / 2
  else max cluster.wIn cluster.hIn / 2

/-- Collision test between two clusters (geometry_helpers.js
`areClustersColliding`): center distance strictly below the sum of effective
radii plus the separation allowance. -/
def areClustersColliding (c1 c2 : UnitCluster) (minSeparationIn : ℚ) : Bool :=
  let bound := getEffectiveRadius c1 + getEffectiveRadius c2 + minSeparationIn
  0 < bound &&
    (c1.cxIn - c2.cxIn) ^ 2 + (c1.cyIn - c2.cyIn) ^ 2 < bound ^ 2

/-- Proximity test of a cluster to a point (geometry_helpers.js
`isUnitNearPoint`): some model of the cluster within the given distance. -/
def isUnitNearPoint (unitCluster : UnitCluster) (px py distanceInches : ℚ) : Bool :=
  unitCluster.models.any (fun m =>
    0 ≤ distanceInches &&
      (m.x - px) ^ 2 + (m.y - py) ^ 2 ≤ distanceInches ^ 2)

/-- Range test between two clusters by nearest model pair
(part_001 `isUnitInRangeOfTarget`). -/
def isUnitInRangeOfTarget (actingUnitCluster targetUnitCluster : UnitCluster)
    (rangeInches : ℚ) : Bool :=
  actingUnitCluster.models.any (fun m1 =>
    targetUnitCluster.models.any (fun m2 =>
      0 ≤ rangeInches &&
        (m1.x - m2.x) ^ 2 + (m1.y - m2.y) ^ 2 ≤ rangeInches ^ 2))

/-! Objectives and end-of-round control update (game_core_logic.js
`updateObjectiveControlAtTurnEnd`). -/

/-- An objective marker: board position and current controller. -/
structure Objective where
  x : ℚ
  y : ℚ
  controller : Option Side
deriving Repr, DecidableEq

/-- The two cluster rosters (globals.js `clusterCache`). -/
structure ClusterCache where
  attackers : List UnitCluster
  defenders : List UnitCluster
deriving Repr, DecidableEq

/-- Roster of one side. -/
def ClusterCache.get (cache : ClusterCache) : Side → List UnitCluster
  | .attackers => cache.attackers
  | .defenders => cache.defenders

/-- End-of-round controller update of a single objective (the body of the
`forEach` in game_core_logic.js lines 1942-1967): exclusive presence of
non-shaken units within 3 inches takes control, simultaneous presence resets
the controller to none, absence of both leaves it unchanged. -/
def updateObjectiveController (cache : ClusterCache) (obj : Objective) : Objective :=
  let attackerUnitsNear :=
    (cache.attackers.filter (fun u => !u.shaken && isUnitNearPoint u obj.x obj.y 3)).length > 0
  let defenderUnitsNear :=
    (cache.defenders.filter (fun u => !u.shaken && isUnitNearPoint u obj.x obj.y 3)).length > 0
  let newController :=
    if attackerUnitsNear && !defenderUnitsNear then
      if obj.controller != some Side.attackers then some Side.attackers else obj.controller
    else if defenderUnitsNear && !attackerUnitsNear then
      if obj.controller != some Side.defenders then some Side.defenders else obj.controller
    else if attackerUnitsNear && defenderUnitsNear then
      if obj.controller != none then none else obj.controller
    else obj.controller
  { obj with controller := newController }

/-- End-of-round objective control update over all objectives
(game_core_logic.js `updateObjectiveControlAtTurnEnd`). -/
def updateObjectiveControlAtTurnEnd (cache : ClusterCache) (objectives : List Objective) :
    List Objective :=
  objectives.map (updateObjectiveController cache)

/-! Morale test (game_core_logic.js `performMoraleTest`). The JS function
mutates the unit cluster object and the roster lists of `clusterCache`; the
embedding threads both explicitly and finishes by writing the cluster's final
state back over any roster entry with its id, which models the aliasing
between the mutated object and the lists that contain it. -/

/-- Removal of a cluster id from one side's roster (the
`clusterCache[side] = clusterCache[side].filter(...)` statements). -/
def removeClusterFromSide (cache : ClusterCache) (side : Side) (id : Nat) : ClusterCache :=
  match side with
  | .attackers => { cache with attackers := cache.attackers.filter (fun c => c.id != id) }
  | .defenders => { cache with defenders := cache.defenders.filter (fun c => c.id != id) }

/-- Side determination used before a roster removal (game_core_logic.js lines
1630-1632 and 1810-1812): attackers when the attacker roster currently holds
the id, else defenders. -/
def sideOfClusterInCache (cache : ClusterCache) (c : UnitCluster) : Side :=
  if cache.attackers.any (fun u => u.id == c.id) then .attackers else .defenders

/-- Write-back of a mutated cluster over every roster entry sharing its id
(models the JS object aliasing between `unitCluster` and the cache lists). -/
def ClusterCache.syncCluster (cache : ClusterCache) (c : UnitCluster) : ClusterCache :=
  { attackers := cache.attackers.map (fun u => if u.id == c.id then c else u),
    defenders := cache.defenders.map (fun u => if u.id == c.id then c else u) }

/-- Fearless majority check (game_core_logic.js lines 1668-1680): more than
half of the original models belong to Fearless sub-units. -/
def fearlessMajority (c : UnitCluster) : Bool :=
  let fearlessModelsCount :=
    (c.unitGroupSubUnits.map (fun su => if su.special.fearless then su.models else 0)).sum
  (fearlessModelsCount : ℚ) > (c.totalModels : ℚ) / 2

/-- Hold the Line / Robot applicability (game_core_logic.js lines 1704-1737):
some surviving sub-unit has Hold the Line, or Robots are a strict majority of
the surviving sub-units. -/
def holdTheLineApplies (c : UnitCluster) : Bool :=
  let active := c.subUnitStates.filter (fun sus => sus.currentModelsInSubUnit > 0)
  let hasHtL := active.any (fun sus => sus.originalSubUnitData.special.holdTheLine)
  let robots := (active.filter (fun sus => sus.originalSubUnitData.special.robot)).length
  hasHtL || (active.length > 0 && (robots : ℚ) > (active.length : ℚ) / 2)

/-- Wound points needed to fully destroy the unit (game_core_logic.js lines
1746-1758): remaining points on the current model plus full capacity of the
other surviving models, over every surviving sub-unit. -/
def woundsToDestroyUnit (c : UnitCluster) : Int :=
  (c.subUnitStates.map (fun sus =>
    if sus.currentModelsInSubUnit > 0 then
      ((sus.woundsPerModel : Int) - (sus.woundsOnCurrentModelInSubUnit : Int)) +
        (if sus.currentModelsInSubUnit > 1 then
          ((sus.currentModelsInSubUnit : Int) - 1) * (sus.woundsPerModel : Int)
        else 0)
    else 0)).sum

/-- Half-strength-or-less test of the melee rout branch (game_core_logic.js
lines 1785-1800): at most half the original models survive, or a lone
surviving Tough model has lost at least half its wound capacity. -/
def isHalfStrengthOrLess (c : UnitCluster) : Bool :=
  if (c.currentModels : ℚ) ≤ (c.totalModels : ℚ) / 2 then true
  else if c.currentModels == 1 then
    match c.subUnitStates.find? (fun sus => sus.currentModelsInSubUnit > 0) with
    | some s => (s.woundsOnCurrentModelInSubUnit : ℚ) ≥ (s.woundsPerModel : ℚ) / 2
    | none => false
  else false

/-- Primary morale roll (game_core_logic.js lines 1621-1663): a shaken unit
auto-fails, is removed from its side's roster and zeroed; otherwise one die is
rolled against sub-unit 0 quality. Returns the cluster, the cache, the
remaining dice and whether the primary test failed. -/
def moralePrimary (unitCluster : UnitCluster) (cache : ClusterCache) (dice : List Nat) :
    UnitCluster × ClusterCache × List Nat × Bool :=
  if unitCluster.shaken then
    let side := sideOfClusterInCache cache unitCluster
    ({ unitCluster with currentModels := 0 },
      removeClusterFromSide cache side unitCluster.id, dice, true)
  else
    let qualityToTest :=
      match unitCluster.unitGroupSubUnits.head? with
      | some su => su.quality
      | none => 6
    let roll := dice.headD 1
    let passed := roll == 6 || (roll > 1 && roll ≥ qualityToTest)
    (unitCluster, cache, dice.tail, !passed)

/-- Fearless save (game_core_logic.js lines 1682-1701): a failed test by a
Fearless-majority unit is negated on a 4+. Returns the final failure flag
and the remaining dice. -/
def moraleFearless (c : UnitCluster) (testFailedInitially : Bool) (dice : List Nat) :
    Bool × List Nat :=
  if testFailedInitially && fearlessMajority c then
    let fearlessRoll := dice.headD 1
    (!(fearlessRoll ≥ 4), dice.tail)
  else (testFailedInitially, dice)

/-- Hold the Line / Robot conversion (game_core_logic.js lines 1739-1778): a
still-failed test converts to a pass at the price of one die per wound point
needed to destroy the unit, each roll of 3 or less inflicting 1 wound. -/
def moraleHoldTheLine (c : UnitCluster) (stillFailed : Bool) (dice : List Nat) :
    UnitCluster × Bool × List Nat :=
  if stillFailed && holdTheLineApplies c then
    let wtd := (woundsToDestroyUnit c).toNat
    let rolls := preventRolls (fun r => r ≤ 3) wtd dice
    let c' := if rolls.1 > 0 then applyWoundsToCluster c (.num rolls.1) else c
    (c', false, rolls.2)
  else (c, stillFailed, dice)

/-- Final morale outcome (game_core_logic.js lines 1783-1836): a standing
failure routs (removes and zeroes) a melee loser at half strength or less,
and otherwise shakes the unit. -/
def moraleFinalOutcome (c : UnitCluster) (cache : ClusterCache)
    (isMeleeTest finalTestOutcomeIsFailure : Bool) : UnitCluster × ClusterCache :=
  if finalTestOutcomeIsFailure then
    if isMeleeTest then
      if isHalfStrengthOrLess c then
        let side := sideOfClusterInCache cache c
        ({ c with currentModels := 0 }, removeClusterFromSide cache side c.id)
      else ({ c with shaken := true }, cache)
    else ({ c with shaken := true }, cache)
  else (c, cache)

/-- Full morale test `performMoraleTest` (game_core_logic.js lines 1608-1837);
combat log and floating text are elided. -/
def performMoraleTest (unitCluster : UnitCluster) (cache : ClusterCache)
    (isMeleeTest : Bool) (dice : List Nat) : UnitCluster × ClusterCache × List Nat :=
  if unitCluster.currentModels ≤ 0 then (unitCluster, cache, dice)
  else
    let r1 := moralePrimary unitCluster cache dice
    let r2 := moraleFearless r1.1 r1.2.2.2 r1.2.2.1
    let r3 := moraleHoldTheLine r1.1 r2.1 r2.2
    let r4 := moraleFinalOutcome r3.1 r1.2.1 isMeleeTest r3.2.1
    (r4.1, ClusterCache.syncCluster r4.2 r4.1, r3.2.2)

/-! Turn state machine (globals.js state, part_001 `finalizeAITurn`). -/

/-- The opposing side. -/
def Side.opposite : Side → Side
  | .attackers => .defenders
  | .defenders => .attackers

/-- Global turn state (globals.js): acting side, round number, round-order
bookkeeping, rosters and objectives. -/
structure TurnState where
  currentTurn : Side
  currentRound : Nat
  playerWhoFinishedLastRoundFirst : Option Side
  playerWhoStartedCurrentRound : Side
  clusterCache : ClusterCache
  objectives : List Objective
deriving Repr, DecidableEq

/-- End-of-activation bookkeeping `finalizeAITurn` (part_001 lines 1359-1401):
update objective control, and when both sides report every unit activated,
advance the round, clear the `activated` and `hasFoughtInMeleeThisRound` flags
of every cluster on both sides, and hand the first activation to the side that
finished first; otherwise just switch the acting side. Rendering, messages and
the button label are elided. -/
def finalizeAITurn (s : TurnState) : TurnState :=
  let objectives := updateObjectiveControlAtTurnEnd s.clusterCache s.objectives
  let finishedPlayer := s.currentTurn
  let currentCache := s.clusterCache.get finishedPlayer
  let opponentCache := s.clusterCache.get finishedPlayer.opposite
  let currentDone := currentCache.all (fun u => u.activated)
  let opponentDone := opponentCache.all (fun u => u.activated)
  if currentDone then
    let pwf :=
      match s.playerWhoFinishedLastRoundFirst with
      | none => some finishedPlayer
      | some p => some p
    if opponentDone then
      let resetList := fun (l : List UnitCluster) => l.map (fun u =>
        { u with activated := false, hasFoughtInMeleeThisRound := false })
      let cache : ClusterCache :=
        { attackers := resetList s.clusterCache.attackers,
          defenders := resetList s.clusterCache.defenders }
      let nextTurn :=
        match pwf with
        | some p => p
        | none => s.playerWhoStartedCurrentRound
      { currentTurn := nextTurn,
        currentRound := s.currentRound + 1,
        playerWhoFinishedLastRoundFirst := none,
        playerWhoStartedCurrentRound := nextTurn,
        clusterCache := cache,
        objectives := objectives }
    else
      { s with
          objectives := objectives,
          playerWhoFinishedLastRoundFirst := pwf,
          currentTurn := finishedPlayer.opposite }
  else
    { s with objectives := objectives, currentTurn := finishedPlayer.opposite }

/-! Movement (renderer.js `animateUnitMovement`, game_setup.js `deployUnit`
scout pre-move and `resolvePostChargeSeparation`). The unit direction vector
`(Δx, Δy)/hypot(Δx, Δy)` is irrational in general; the embedding takes the
resulting displacement (or the hypotenuse value) as a parameter, and every
theorem quantifies over it or instantiates it where it is rational. -/

/-- Model offsets relative to the cluster center; the spec's consistency
notion for movement is that these are preserved. -/
def centerModelOffsets (c : UnitCluster) : List (ℚ × ℚ) :=
  c.models.map (fun m => (m.x - c.cxIn, m.y - c.cyIn))

/-- Per-frame translation of `animateUnitMovement` (renderer.js lines
218-228): the frame displacement is added to the center, the origin, and
every model position alike. -/
def animateMovementFrameStep (unitCluster : UnitCluster) (moveXThisFrame moveYThisFrame : ℚ) :
    UnitCluster :=
  { unitCluster with
      cxIn := unitCluster.cxIn + moveXThisFrame,
      cyIn := unitCluster.cyIn + moveYThisFrame,
      originXIn := unitCluster.originXIn + moveXThisFrame,
      originYIn := unitCluster.originYIn + moveYThisFrame,
      models := unitCluster.models.map (fun m =>
        { m with x := m.x + moveXThisFrame, y := m.y + moveYThisFrame }) }

/-- Final snap of `animateUnitMovement` (renderer.js lines 235-245): center,
origin and every model are set to their captured original positions plus the
full move vector. The source reads `originalModelPositions[index]` for each
current model index; the lists have equal length at every call, the `getD`
default is never read. -/
def animateMovementSnap (originalCenter originalOrigin : ℚ × ℚ)
    (originalModelPositions : List Model) (finalMoveX finalMoveY : ℚ)
    (unitCluster : UnitCluster) : UnitCluster :=
  { unitCluster with
      cxIn := originalCenter.1 + finalMoveX,
      cyIn := originalCenter.2 + finalMoveY,
      originXIn := originalOrigin.1 + finalMoveX,
      originYIn := originalOrigin.2 + finalMoveY,
      models := (List.range unitCluster.models.length).map (fun index =>
        let om := originalModelPositions.getD index ⟨0, 0⟩
        ⟨om.x + finalMoveX, om.y + finalMoveY⟩) }

/-- Scout pre-move of `deployUnit` (game_setup.js lines 112-122): the move
toward the nearest objective is added to center, origin and every model
position alike (the image redraw is elided). -/
def scoutMoveTowardObjective (newCluster : UnitCluster) (moveX moveY : ℚ) : UnitCluster :=
  { newCluster with
      cxIn := newCluster.cxIn + moveX,
      cyIn := newCluster.cyIn + moveY,
      originXIn := newCluster.originXIn + moveX,
      originYIn := newCluster.originYIn + moveY,
      models := newCluster.models.map (fun m =>
        { m with x := m.x + moveX, y := m.y + moveY }) }

/-- Post-charge push-back `resolvePostChargeSeparation` (game_setup.js lines
710-729): when charger and charged target still overlap under a -0.1
separation tolerance, the target's center and origin are moved 1 inch along
the center-to-center direction. `hypotDist` stands for `Math.hypot(dx, dy)`,
and the `|| 1` guard maps 0 to 1. The source updates `cxIn`, `cyIn`,
`originXIn` and `originYIn` but not `models`, and so does this embedding. -/
def resolvePostChargeSeparation (chargerCluster chargedTargetCluster : UnitCluster)
    (hypotDist : ℚ) : UnitCluster :=
  if areClustersColliding chargerCluster chargedTargetCluster (-(1/10)) then
    let dx := chargedTargetCluster.cxIn - chargerCluster.cxIn
    let dy := chargedTargetCluster.cyIn - chargerCluster.cyIn
    let dist := if hypotDist == 0 then 1 else hypotDist
    let pushBackDirX := dx / dist
    let pushBackDirY := dy / dist
    { chargedTargetCluster with
        cxIn := chargedTargetCluster.cxIn + pushBackDirX * 1,
        cyIn := chargedTargetCluster.cyIn + pushBackDirY * 1,
        originXIn := chargedTargetCluster.originXIn + pushBackDirX * 1,
        originYIn := chargedTargetCluster.originYIn + pushBackDirY * 1 }
  else chargedTargetCluster

/-! Combat orchestrator damage plumbing (game_setup.js `aiExecuteMeleeAction`
lines 507-551, part_004 `aiExecuteShootAction` lines 122-153). The
defender-sub-unit selection for saves happens earlier in both functions and is
taken as a parameter here. -/

/-- Weapon list a sub-unit fires with (both orchestrators): the recomputed
effective loadout of the matching sub-unit state when one is found, else the
template's weapons. The source also matches on the state id prefix, which
always holds for the cluster's own states, and tests `effectiveWeapons` for
truthiness, which an array always satisfies. -/
def weaponsToUseFor (cluster : UnitCluster) (su : SubUnitDefinition) : List Weapon :=
  match cluster.subUnitStates.find? (fun s => s.originalSubUnitData.name == su.name) with
  | some st => st.effectiveWeapons
  | none => su.weapons

/-- Melee strike aggregation (game_setup.js lines 510-540 for the charger,
591-616 for the return strike): every melee weapon of every attacking sub-unit
resolves an attack sequence, and only the summed `totalDamageInflicted` is
accumulated. -/
def meleeStrikeTotalDamage (attackerCluster : UnitCluster)
    (defenderSubUnitForSaveRolls : SubUnitDefinition) (defenderModels : Int)
    (isCharge isAttackerFatigued : Bool) (dice : List Nat) : Nat × List Nat :=
  attackerCluster.unitGroupSubUnits.foldl
    (fun acc su =>
      (weaponsToUseFor attackerCluster su).foldl
        (fun acc2 w =>
          if w.range == 0 then
            let (res, d') := gameRollAttackSequence su w defenderSubUnitForSaveRolls
              defenderModels (.ctx true isCharge false) false isAttackerFatigued
              attackerCluster.unitGroupSubUnits acc2.2
            (acc2.1 + res.totalDamageInflicted, d')
          else acc2)
        acc)
    (0, dice)

/-- Melee wound application (game_setup.js lines 548-551 and 620-624): the
summed total is passed to `applyWoundsToCluster` as a plain number. -/
def meleeApplyStrikeDamage (defenderCluster : UnitCluster) (totalDamage : Nat) : UnitCluster :=
  if totalDamage > 0 then applyWoundsToCluster defenderCluster (.num totalDamage)
  else defenderCluster

/-- Weapons a shooter can fire at the target (part_004 lines 79-109): every
ranged weapon of every sub-unit whose range covers the nearest model pair. -/
def shootableWeapons (shooter target : UnitCluster) : List (SubUnitDefinition × Weapon) :=
  (shooter.unitGroupSubUnits.map (fun su =>
    ((weaponsToUseFor shooter su).filter (fun w =>
      w.range > 0 && isUnitInRangeOfTarget shooter target (w.range : ℚ))).map
        (fun w => (su, w)))).flatten

/-- Shooting packet aggregation (part_004 lines 122-142): each weapon's attack
sequence contributes its wound packets, concatenated with sizes preserved. -/
def shootCollectWoundPackets (shooter target : UnitCluster)
    (defenderSubUnitForSaveRolls : SubUnitDefinition) (actionContext : ActionContext)
    (isTargetInCover : Bool) (dice : List Nat) : List Nat × List Nat :=
  (shootableWeapons shooter target).foldl
    (fun acc p =>
      let (res, d') := gameRollAttackSequence p.1 p.2 defenderSubUnitForSaveRolls
        target.currentModels actionContext isTargetInCover false
        shooter.unitGroupSubUnits acc.2
      (acc.1 ++ res.woundPackets, d'))
    ([], dice)

/-- Shooting wound application (part_004 lines 149-153): the collected packet
array is passed to `applyWoundsToCluster` unchanged. -/
def shootApplyDamage (target : UnitCluster) (packets : List Nat) : UnitCluster :=
  if packets.length > 0 then applyWoundsToCluster target (.arr packets) else target

/-! Army list parser (parser.js, with `splitTopLevel` from ui.js). The JS
regular expressions are rendered as character-level scanners with the same
matching semantics: lazy groups become earliest-position scans, greedy digit
and whitespace runs are maximal, and anchored tails are checked exactly. -/

/-- Whitespace class of the source's `\s` on the characters that occur in army
lists. -/
def jsWhitespace (c : Char) : Bool :=
  c == ' ' || c == '\t' || c == '\n' || c == '\r'

/-- Word-character class of the source's `\w` : `[A-Za-z0-9_]`. -/
def isWordChar (c : Char) : Bool :=
  c.isAlpha || c.isDigit || c == '_'

/-- Leading-whitespace strip (a greedy `\s*`). -/
def dropLeadingWs (s : List Char) : List Char := s.dropWhile jsWhitespace

/-- Trailing-whitespace strip. -/
def dropTrailingWs (s : List Char) : List Char := (s.reverse.dropWhile jsWhitespace).reverse

/-- Mirror of JS `String.prototype.trim`. -/
def trimChars (s : List Char) : List Char := dropTrailingWs (dropLeadingWs s)

/-- Mirror of JS `String.prototype.trim` on `String`. -/
def trimStr (s : String) : String := String.mk (trimChars s.toList)

/-- Case-insensitive character-list equality (the `/i` regex flag). -/
def lowerEq (a b : List Char) : Bool := a.map Char.toLower == b.map Char.toLower

/-- Decimal value of a digit run, as `parseInt(·, 10)` computes it. -/
def digitsToNat (ds : List Char) : Nat :=
  ds.foldl (fun acc c => acc * 10 + (c.toNat - Char.toNat '0')) 0

/-- Read a `(\d+)` group: a maximal nonempty digit run and the remainder. -/
def readDigits (s : List Char) : Option (Nat × List Char) :=
  let ds := s.takeWhile Char.isDigit
  if ds.isEmpty then none else some (digitsToNat ds, s.drop ds.length)

/-- Case-insensitive single-character expectation. -/
def expectCharCI (c : Char) : List Char → Option (List Char)
  | x :: rest => if x.toLower == c.toLower then some rest else none
  | [] => none

/-- Character loop of `splitTopLevel` (ui.js lines 298-315): parenthesis level
is updated first (floored at 0), a separator at level 0 flushes the buffer,
and a trailing nonempty buffer is appended. -/
def splitTopLevelGo (sep : Char) : List Char → Nat → List Char → List (List Char) →
    List (List Char)
  | [], _, buf, out => if buf.isEmpty then out else out ++ [buf]
  | ch :: rest, level, buf, out =>
    let level' :=
      if ch == '(' then level + 1
      else if ch == ')' then level - 1
      else level
    if ch == sep && level' == 0 then splitTopLevelGo sep rest level' [] (out ++ [buf])
    else splitTopLevelGo sep rest level' (buf ++ [ch]) out

/-- Parenthesis-aware top-level split `splitTopLevel` (ui.js). -/
def splitTopLevel (str : String) (sep : Char) : List String :=
  (splitTopLevelGo sep str.toList 0 [] []).map String.mk

/-- Effect class of one entry of `SPECIAL_RULE_DEFINITIONS` (parser.js). -/
inductive RuleKind where
  | boolRule (apply : SpecialRules → SpecialRules)
  | numRule (apply : SpecialRules → JsVal → SpecialRules)
  | customRule (apply : SpecialRules → SpecialRules)

/-- The rule dictionary `SPECIAL_RULE_DEFINITIONS` (parser.js lines 4-47), in
source (insertion) order. A numeric rule written without an argument stores
the JS value `true`. -/
def specialRuleDefinitions : List (String × RuleKind) :=
  [ ("Hero", .boolRule (fun s => { s with hero := true })),
    ("Relentless", .boolRule (fun s => { s with relentless := true })),
    ("Medical Training", .boolRule (fun s => { s with medicalTraining := true })),
    ("Shield Wall", .boolRule (fun s => { s with shieldWall := true })),
    ("Combat Shield", .boolRule (fun s => { s with shieldWall := true })),
    ("Good Shot", .boolRule (fun s => { s with goodShot := true })),
    ("Fast", .boolRule (fun s => { s with fast := true })),
    ("Robot", .boolRule (fun s => { s with robot := true })),
    ("Scout", .boolRule (fun s => { s with scout := true })),
    ("Strider", .boolRule (fun s => { s with strider := true })),
    ("Fearless", .boolRule (fun s => { s with fearless := true })),
    ("Self-Repair", .boolRule (fun s => { s with selfRepair := true })),
    ("Ambush", .boolRule (fun s => { s with ambush := true })),
    ("Company Standard", .boolRule (fun s => { s with companyStandard := true })),
    ("Take Aim", .boolRule (fun s => { s with takeAim := true })),
    ("Hold the Line", .boolRule (fun s => { s with holdTheLine := true })),
    ("Stealth", .boolRule (fun s => { s with stealth := true })),
    ("Flying", .boolRule (fun s => { s with flying := true })),
    ("Precision Shots", .boolRule (fun s => { s with precisionShots := true })),
    ("Tough", .numRule (fun s v => { s with tough := some v })),
    ("Deadly", .numRule (fun s v => { s with deadly := some v })),
    ("Fear", .numRule (fun s v => { s with fear := some v })),
    ("Impact", .numRule (fun s v => { s with impact := some v })),
    ("Caster", .numRule (fun s v => { s with caster := some v })),
    ("Transport", .numRule (fun s v => { s with transport := some v })),
    ("Furious", .customRule (fun s => { s with furious := true, furiousOriginal := true })),
    ("Battle Drills", .customRule (fun s =>
      let s1 := { s with battleDrills := true }
      if !s1.furious then { s1 with furious := true, furiousOriginal := false } else s1)) ]

/-- Match of the per-rule pattern `^Name(?:\([+]?(\d+)\))?$` (case-insensitive)
built by `parseRule` (parser.js line 116); returns the numeric argument when
present. -/
def matchRuleName (ruleName : String) (s : List Char) : Option (Option Nat) :=
  let rn := ruleName.toList
  if !(lowerEq (s.take rn.length) rn) then none
  else
    match s.drop rn.length with
    | [] => some none
    | '(' :: rest =>
      let rest2 :=
        match rest with
        | '+' :: r => r
        | r => r
      match readDigits rest2 with
      | some (n, after) => if after == [')'] then some (some n) else none
      | none => none
    | _ => none

/-- Dictionary walk of `parseRule` (parser.js lines 114-127): the first
matching entry applies its effect. -/
def parseRuleGo (s : List Char) (special : SpecialRules) :
    List (String × RuleKind) → Bool × SpecialRules
  | [] => (false, special)
  | (name, kind) :: rest =>
    match matchRuleName name s with
    | some arg =>
      match kind with
      | .boolRule f => (true, f special)
      | .numRule f =>
        (true, f special (match arg with | some n => .num n | none => .bool true))
      | .customRule f => (true, f special)
    | none => parseRuleGo s special rest

/-- Special-rule token parse `parseRule` (parser.js): whether the token
matched, and the updated flags. -/
def parseRule (ruleString : String) (special : SpecialRules) : Bool × SpecialRules :=
  parseRuleGo ruleString.toList special specialRuleDefinitions

/-- Index of the last occurrence of a character. -/
def lastIdxOf (c : Char) (s : List Char) : Option Nat :=
  ((s.enum.filter (fun p => p.2 == c)).map (·.1)).getLast?

/-- Index of the first occurrence of a character. -/
def firstIdxOf (c : Char) (s : List Char) : Option Nat :=
  ((s.enum.find? (fun p => p.2 == c)).map (·.1))

/-- Capture of the embedded-parenthesis pattern `/.*\((.+)\)/` used by
`parseSpecialsAndKeywords` (parser.js line 136): the greedy prefix picks the
last `(` that still leaves a nonempty body closed by the last `)`. -/
def lastParenInner (s : List Char) : Option (List Char) :=
  match lastIdxOf ')' s with
  | none => none
  | some q =>
    match ((s.enum.filter (fun p => p.2 == '(' && p.1 + 2 ≤ q)).map (·.1)).getLast? with
    | none => none
    | some p => some ((s.take q).drop (p + 1))

/-- Spec-line token fold `parseSpecialsAndKeywords` (parser.js lines 129-144):
each trimmed token is matched against the rule dictionary, retried on an
embedded parenthesized fragment, and recorded as a free-form keyword when it
stays unmatched and carries no parenthesis. -/
def parseSpecialsAndKeywords (specItems : List String) : SpecialRules × List String :=
  specItems.foldl
    (fun (acc : SpecialRules × List String) item0 =>
      let item := trimStr item0
      let (matched1, special1) := parseRule item acc.1
      let (matched, special) :=
        if matched1 then (true, special1)
        else
          match lastParenInner item.toList with
          | some inner => parseRule (trimStr (String.mk inner)) special1
          | none => (false, special1)
      if !matched && !(item.toList.contains '(') && !(item.toList.contains ')') then
        (special, acc.2 ++ [item])
      else (special, acc.2))
    ({}, [])

/-- Weapon-token filter `/\w+\s*\(.*\)/.test` (parser.js line 85): some `(`
preceded, after optional whitespace, by a word character, with a `)` later. -/
def weaponTokenTest (s : List Char) : Bool :=
  (List.range s.length).any (fun j =>
    s.getD j ' ' == '(' &&
    (let pre := dropTrailingWs (s.take j)
     match pre.getLast? with
     | some c => isWordChar c
     | none => false) &&
    (s.drop (j + 1)).contains ')')

/-- Match of the range stat token `^(\d+)"$`. -/
def matchRangeToken (p : List Char) : Option Nat :=
  match readDigits p with
  | some (n, rest) => if rest == ['"'] then some n else none
  | none => none

/-- Match of the attacks stat token `^[Aa]?(\d+)$`. -/
def matchAttacksToken (p : List Char) : Option Nat :=
  let p2 :=
    match p with
    | 'A' :: r => r
    | 'a' :: r => r
    | r => r
  match readDigits p2 with
  | some (n, []) => some n
  | _ => none

/-- Match of the armor-penetration stat token `^AP\((-?\d+)\)$` (insensitive). -/
def matchApToken (p : List Char) : Option Int :=
  if lowerEq (p.take 2) ['a', 'p'] then
    match p.drop 2 with
    | '(' :: rest =>
      let (neg, rest2) :=
        match rest with
        | '-' :: r => (true, r)
        | r => (false, r)
      match readDigits rest2 with
      | some (n, after) =>
        if after == [')'] then some (if neg then -(n : Int) else (n : Int)) else none
      | none => none
    | _ => none
  else none

/-- Match of a named weapon rule `^([a-zA-Z\s-]+)(?:\((\d+)\))?$`. -/
def ruleTokenMatch (p : List Char) : Option (List Char × Option Nat) :=
  let isNameChar := fun c => Char.isAlpha c || jsWhitespace c || c == '-'
  let nm := p.takeWhile isNameChar
  if nm.isEmpty then none
  else
    match p.drop nm.length with
    | [] => some (nm, none)
    | '(' :: rest =>
      match readDigits rest with
      | some (n, after) => if after == [')'] then some (nm, some n) else none
      | none => none
    | _ => none

/-- Mirror of the JS object write `flags[k] = v`: replace in place when the
key exists, else append. -/
def setFlag (flags : List (String × JsVal)) (k : String) (v : JsVal) :
    List (String × JsVal) :=
  if flags.any (fun p => p.1 == k) then
    flags.map (fun p => if p.1 == k then (k, v) else p)
  else flags ++ [(k, v)]

/-- Stat-part fold of `parseWeapons` (parser.js lines 91-108): range, attacks
and AP tokens set their stat, anything else becomes a lowercased flag. -/
def parseWeaponStats (inner : String) : Nat × Nat × Int × List (String × JsVal) :=
  let parts := (splitTopLevel inner ',').map (fun s => trimChars s.toList)
  parts.foldl
    (fun acc p =>
      match matchRangeToken p with
      | some n => (n, acc.2.1, acc.2.2.1, acc.2.2.2)
      | none =>
        match matchAttacksToken p with
        | some n => (acc.1, n, acc.2.2.1, acc.2.2.2)
        | none =>
          match matchApToken p with
          | some v => (acc.1, acc.2.1, v, acc.2.2.2)
          | none =>
            match ruleTokenMatch p with
            | some (nm, argOpt) =>
              (acc.1, acc.2.1, acc.2.2.1,
                setFlag acc.2.2.2 ((String.mk (trimChars nm)).map Char.toLower)
                  (match argOpt with | some n => JsVal.num n | none => JsVal.bool true))
            | none => acc)
    (0, 1, 0, [])

/-- Body of a weapon token after the optional amount group, following
`^([^(]+?)\s*\((.+)\)$` : the name runs to the first `(` (trailing whitespace
stripped), the stat block is everything up to the final `)`. -/
def parseWeaponBody (amount : Nat) (rest : List Char) : Option Weapon :=
  match firstIdxOf '(' rest with
  | none => none
  | some j =>
    let namePart := dropTrailingWs (rest.take j)
    if namePart.isEmpty then none
    else
      match rest.getLast? with
      | some ')' =>
        let inner := (rest.drop (j + 1)).dropLast
        if inner.isEmpty then none
        else
          let (range, attacks, ap, flags) := parseWeaponStats (String.mk inner)
          some { amount := amount, name := trimStr (String.mk namePart), range := range,
                 attacks := attacks, ap := ap, special := flags }
      | _ => none

/-- One weapon token `^(?:(\d+)x\s*)?([^(]+?)\s*\((.+)\)$` (parser.js lines
87-109): the optional amount group is preferred and abandoned on failure. -/
def parseWeaponSpec (spec : String) : Option Weapon :=
  let s := spec.toList
  let withAmount :=
    match readDigits s with
    | some (amt, rest) =>
      match rest with
      | 'x' :: rest2 => parseWeaponBody amt (dropLeadingWs rest2)
      | _ => none
    | none => none
  match withAmount with
  | some w => some w
  | none => parseWeaponBody 1 s

/-- Equipment-line parse `parseWeapons` (parser.js lines 81-112): top-level
comma split, weapon-shaped filter, per-token parse with silent drops. -/
def parseWeapons (equipLine : String) : List Weapon :=
  if (trimStr equipLine).toList.isEmpty then []
  else
    (((splitTopLevel equipLine ',').map trimStr).filter
      (fun s => weaponTokenTest s.toList)).filterMap parseWeaponSpec

/-- Tail of the unit header after a candidate `[`, following
`(\d+)\]\s*Q(\d+)\+\s*D(\d+)\+\s*\|\s*(\d+)pts\s*(?:\|\s*(.*))?$`
(case-insensitive). -/
def headerAfterBracket (s : List Char) : Option (Nat × Nat × Nat × Nat × Option String) := do
  let (models, r1) ← readDigits s
  let r2 ← match r1 with | ']' :: r => some r | _ => none
  let r4 ← expectCharCI 'q' (dropLeadingWs r2)
  let (q, r5) ← readDigits r4
  let r6 ← match r5 with | '+' :: r => some r | _ => none
  let r8 ← expectCharCI 'd' (dropLeadingWs r6)
  let (d, r9) ← readDigits r8
  let r10 ← match r9 with | '+' :: r => some r | _ => none
  let r12 ← match dropLeadingWs r10 with | '|' :: r => some r | _ => none
  let (pts, r14) ← readDigits (dropLeadingWs r12)
  if lowerEq (r14.take 3) ['p', 't', 's'] then
    match dropLeadingWs (r14.drop 3) with
    | [] => some (models, q, d, pts, none)
    | '|' :: r16 => some (models, q, d, pts, some (String.mk (dropLeadingWs r16)))
    | _ => none
  else none

/-- Scan for the header pattern `^(.+?)\s*\[...` (parser.js line 148): the
lazy name group makes the earliest `[` whose tail parses win; the name is the
nonempty prefix with trailing whitespace stripped. -/
def headerScan (acc : List Char) :
    List Char → Option (String × Nat × Nat × Nat × Nat × Option String)
  | [] => none
  | '[' :: rest =>
    let namePart := dropTrailingWs acc
    if !namePart.isEmpty then
      match headerAfterBracket rest with
      | some (models, q, d, pts, spec) =>
        some (String.mk namePart, models, q, d, pts, spec)
      | none => headerScan (acc ++ ['[']) rest
    else headerScan (acc ++ ['[']) rest
  | c :: rest => headerScan (acc ++ [c]) rest

/-- Unit parse `parseUnit` (parser.js lines 146-165): header match, spec-line
split and rule parse, equipment-line parse. -/
def parseUnit (headerLine equipLine : String) : Option SubUnitDefinition :=
  match headerScan [] headerLine.toList with
  | none => none
  | some (name, models, q, d, pts, specTextOpt) =>
    let specText :=
      match specTextOpt with
      | some t => t
      | none => ""
    let items :=
      if specText != "" then (splitTopLevel specText ',').map trimStr else []
    let (special, keywords) := parseSpecialsAndKeywords items
    some { name := trimStr name, models := models, quality := q, defense := d,
           points := pts, special := special, weapons := parseWeapons equipLine,
           keywords := keywords }

/-! Concrete fixtures used by the claim theorems, witnesses and
counterexamples. -/

/-- A Deadly(3) melee weapon. -/
def fxDeadlyMelee : Weapon :=
  { amount := 1, name := "Claw", range := 0, attacks := 1, ap := 0,
    special := [("deadly", JsVal.num 3)] }

/-- A single-model melee attacker sub-unit with the Deadly(3) claw. -/
def fxMeleeAttackerSU : SubUnitDefinition :=
  { name := "Berserker", models := 1, quality := 4, defense := 4,
    weapons := [fxDeadlyMelee] }

/-- The attacker's cluster. -/
def fxMeleeAttacker : UnitCluster :=
  { id := 1, side := .attackers, cxIn := 0, cyIn := 0, originXIn := 0, originYIn := 0,
    wIn := DIA_IN, hIn := DIA_IN, models := [⟨0, 0⟩],
    unitGroupSubUnits := [fxMeleeAttackerSU],
    activated := false, shaken := false, hasFoughtInMeleeThisRound := false,
    totalModels := 1, currentModels := 1,
    subUnitStates := [⟨fxMeleeAttackerSU, 1, 0, 1, [fxDeadlyMelee], false⟩] }

/-- A three-model, one-wound-per-model defender sub-unit. -/
def fxGruntSU : SubUnitDefinition :=
  { name := "Grunts", models := 3, quality := 5, defense := 5 }

/-- The defending cluster of three one-wound models. -/
def fxGruntDefender : UnitCluster :=
  { id := 2, side := .defenders, cxIn := 10, cyIn := 0, originXIn := 10, originYIn := 0,
    wIn := 2 * DIA_IN, hIn := 2 * DIA_IN, models := [⟨10, 0⟩, ⟨11, 0⟩, ⟨12, 0⟩],
    unitGroupSubUnits := [fxGruntSU],
    activated := false, shaken := false, hasFoughtInMeleeThisRound := false,
    totalModels := 3, currentModels := 3,
    subUnitStates := [⟨fxGruntSU, 3, 0, 1, [], false⟩] }

/-- A Blast(3) ranged weapon with a single attack. -/
def fxBlastWeapon : Weapon :=
  { amount := 1, name := "Launcher", range := 24, attacks := 1, ap := 0,
    special := [("blast", JsVal.num 3)] }

/-- The shooter sub-unit behind the blast weapon. -/
def fxBlastShooterSU : SubUnitDefinition :=
  { name := "Gunner", models := 1, quality := 4, defense := 4,
    weapons := [fxBlastWeapon] }

/-- A single-model D5+ defender sub-unit for the blast save rolls. -/
def fxBlastDefenderSU : SubUnitDefinition :=
  { name := "Target", models := 1, quality := 4, defense := 5 }

/-- Attacker cluster within 3 inches of the contested objective. -/
def fxC4AttackerNear : UnitCluster := { fxMeleeAttacker with id := 11 }

/-- Defender cluster within 3 inches of the contested objective. -/
def fxC4DefenderNear : UnitCluster :=
  { fxGruntDefender with id := 12, cxIn := 1, models := [⟨1, 0⟩] }

/-- Roster with both clusters near the objective. -/
def fxC4Cache : ClusterCache := ⟨[fxC4AttackerNear], [fxC4DefenderNear]⟩

/-- The contested objective, currently held by the attackers. -/
def fxC4Objective : Objective := ⟨0, 0, some .attackers⟩

/-- An activated attacker that is shaken and melee-fatigued at round end. -/
def fxC7ShakenAttacker : UnitCluster :=
  { fxMeleeAttacker with
      activated := true, shaken := true, hasFoughtInMeleeThisRound := true }

/-- An activated defender at round end. -/
def fxC7Defender : UnitCluster := { fxGruntDefender with activated := true }

/-- Turn state in which both sides report every unit activated. -/
def fxC7State : TurnState :=
  { currentTurn := .attackers, currentRound := 1,
    playerWhoFinishedLastRoundFirst := none,
    playerWhoStartedCurrentRound := .attackers,
    clusterCache := ⟨[fxC7ShakenAttacker], [fxC7Defender]⟩, objectives := [] }

/-- The charging cluster of the post-charge push-back scenario (radius 1,
centered at the origin). -/
def fxC3Charger : UnitCluster := { fxMeleeAttacker with id := 21, wIn := 2, hIn := 2 }

/-- The charged cluster: radius 1/2, centered at (1, 0) with its single model
there, still overlapping the charger. The center offset is axis-aligned, so
`Math.hypot(dx, dy) = |dx| = 1` exactly. -/
def fxC3Charged : UnitCluster :=
  { fxGruntDefender with
      id := 22, cxIn := 1, cyIn := 0, originXIn := 1 / 2, originYIn := -(1 / 2),
      wIn := 1, hIn := 1, models := [⟨1, 0⟩] }

/-- A live shaken cluster about to take a second morale test. -/
def fxC9Shaken : UnitCluster := { fxMeleeAttacker with id := 31, shaken := true }

/-- Roster holding the shaken cluster on the attacker side. -/
def fxC9Cache : ClusterCache := ⟨[fxC9Shaken], [fxGruntDefender]⟩

/-- A one-wound cluster for the C1 witness. -/
def fxC1Cluster : UnitCluster := { fxGruntDefender with id := 41 }

/-! Helper lemmas. -/

/-- Flattening an `m`-fold replication of every element multiplies the length
by `m`. -/
lemma length_flatten_map_replicate (m : Nat) (g : Hit → Hit) (l : List Hit) :
    ((l.map (fun h => List.replicate m (g h))).flatten).length = l.length * m := by
  induction l with
  | nil => simp
  | cons x xs ih => simp [ih, Nat.succ_mul, Nat.add_comm]

/-- Every element of a flattened replication is an image under `g`. -/
lemma of_mem_flatten_map_replicate {m : Nat} {g : Hit → Hit} {l : List Hit} {h : Hit}
    (hm : h ∈ (l.map (fun x => List.replicate m (g x))).flatten) : ∃ x ∈ l, h = g x := by
  rw [List.mem_flatten] at hm
  obtain ⟨ys, hys, hmem⟩ := hm
  rw [List.mem_map] at hys
  obtain ⟨x, hx, rfl⟩ := hys
  exact ⟨x, hx, List.eq_of_mem_replicate hmem⟩

/-! C2 -/

/-- C2: in the save step of `gameRollAttackSequence`, the computed save
threshold is at least 2 for every combination of defense, Shield Wall, cover
and hit AP; a save roll of 6 never fails and a save roll of 1 always fails,
whatever the threshold. -/
theorem C2_save_threshold_floor_and_extremes :
    (∀ (defense : Nat) (shieldWall inCover : Bool) (hit : Hit),
      2 ≤ saveTargetFor defense shieldWall inCover hit) ∧
    (∀ saveTarget : Int,
      saveRollFails 6 saveTarget = false ∧ saveRollFails 1 saveTarget = true) := by
  refine ⟨fun d sw c h => le_max_left _ _, fun t => ⟨?_, ?_⟩⟩
  · simp [saveRollFails]
  · simp [saveRollFails]

/-! C6 -/

/-- C6: a hit roll of 1 never scores a hit in `gameRollAttackSequence`, even
for a Reliable weapon; and for a non-fatigued-melee attacker Reliable only
lowers the hit threshold by 1 with a floor of 2 (a fatigued melee attacker's
threshold is unaffected). -/
theorem C6_roll_of_one_never_hits :
    (∀ (quality : Nat) (goodShot isMelee isHold reliable fatigued : Bool),
      hitOccurred 1 reliable isMelee fatigued
        (computeQTarget quality goodShot isMelee isHold reliable fatigued) = false) ∧
    (∀ (quality : Nat) (goodShot isMelee isHold fatigued : Bool),
      computeQTarget quality goodShot isMelee isHold true fatigued =
        if isMelee && fatigued then
          computeQTarget quality goodShot isMelee isHold false fatigued
        else max 2 (computeQTarget quality goodShot isMelee isHold false fatigued - 1)) := by
  constructor
  · intro quality goodShot isMelee isHold reliable fatigued
    cases reliable with
    | false => simp [hitOccurred]
    | true =>
      cases hmf : isMelee && fatigued with
      | true =>
        simp only [hitOccurred, computeQTarget, hmf]
        simp
      | false =>
        have h2 : 2 ≤ computeQTarget quality goodShot isMelee isHold true fatigued := by
          simp only [computeQTarget, hmf]
          simp
        simp only [hitOccurred, hmf]
        simp only [Bool.and_self, Bool.not_true, Bool.and_false, if_false]
        simp
        omega
  · intro quality goodShot isMelee isHold fatigued
    cases hmf : isMelee && fatigued with
    | true => simp [computeQTarget, hmf]
    | false => simp [computeQTarget, hmf]

/-! C8 -/

/-- C8: parsing the header line `Orc Boyz [10] Q4+ D5+ | 90pts | Fast,
Tough(3)` with equipment line `2x Rifle(24", A2, AP(1))` yields models 10,
quality 4, defense 5, points 90, Fast and Tough(3) set, and a single weapon
with amount 2, name Rifle, range 24, attacks 2, AP 1. -/
theorem C8_parser_round_trip :
    parseUnit "Orc Boyz [10] Q4+ D5+ | 90pts | Fast, Tough(3)"
        "2x Rifle(24\", A2, AP(1))" =
      some { name := "Orc Boyz", models := 10, quality := 4, defense := 5, points := 90,
             special := { fast := true, tough := some (JsVal.num 3) },
             weapons := [{ amount := 2, name := "Rifle", range := 24, attacks := 2,
                           ap := 1, special := [] }],
             keywords := [] } := by
  rfl

/-! C5 -/

/-- C5 counterexample: with a Blast(3) weapon against a single-model defender
in cover (defense 5, no Shield Wall), the lone hit of the successful die is
itself flagged as blast-spawned, so its save is rolled without the cover
bonus: the full sequence on dice [6, 4] yields a failed save and the packet
list [1], while a save threshold that kept the cover bonus would have let the
roll of 4 succeed. -/
theorem C5_blast_counterexample :
    ((applyBlast fxBlastWeapon 1 [{ ap := 0, roll := 6 }]).map (fun h => h.fromBlast))
        = [true] ∧
    (gameRollAttackSequence fxBlastShooterSU fxBlastWeapon fxBlastDefenderSU 1
        (.str "Hold") true false [fxBlastShooterSU] [6, 4]).1.woundPackets = [1] ∧
    saveRollFails 4 (saveTargetFor 5 false true { ap := 0, roll := 6, fromBlast := true })
        = true ∧
    saveRollFails 4 (saveTargetFor 5 false true { ap := 0, roll := 6, fromBlast := false })
        = false := by
  decide

/-- C5 (amended): when a Blast weapon attacks a defender with at least one
model, every hit is multiplied by min(blast, defender models), and all
resulting hits — the one corresponding to the original die included — are
flagged blast-spawned and therefore excluded from the cover bonus on their
save roll. -/
theorem C5_blast_multiplies_and_flags_every_hit (w : Weapon) (dm : Int)
    (hits : List Hit) (v : JsVal) (hb : wlookup w.special "blast" = some v)
    (hv : v.truthy = true) (hdm : 0 < dm) :
    (applyBlast w dm hits).length = hits.length * min v.toNum dm.toNat ∧
    (∀ h ∈ applyBlast w dm hits, h.fromBlast = true) ∧
    (∀ (baseD : Nat) (shieldWall : Bool) (h : Hit), h.fromBlast = true →
      saveTargetFor baseD shieldWall true h = saveTargetFor baseD shieldWall false h) := by
  have hw : wtruthy w.special "blast" = true := by simp [wtruthy, hb, hv]
  have hn : wnum w.special "blast" = v.toNum := by simp [wnum, hb]
  have hcond : (wtruthy w.special "blast" && decide (dm > 0)) = true := by
    simp [hw, hdm]
  refine ⟨?_, ?_, ?_⟩
  · simp only [applyBlast, hcond, if_true, hn]
    exact length_flatten_map_replicate _ _ hits
  · intro h hm
    simp only [applyBlast, hcond, if_true, hn] at hm
    obtain ⟨x, _, rfl⟩ := of_mem_flatten_map_replicate hm
    rfl
  · intro baseD shieldWall h hfb
    simp [saveTargetFor, hfb]

/-- C5 witness: the amended theorem applied to the Blast(3) weapon against a
single-model defender. -/
theorem C5_blast_multiplies_and_flags_every_hit_witness :
    (0 : Int) < 1 ∧
    ((applyBlast fxBlastWeapon 1 [{ ap := 0, roll := 6 }]).length
        = [({ ap := 0, roll := 6 } : Hit)].length * min (JsVal.num 3).toNum (1 : Int).toNat ∧
    (∀ h ∈ applyBlast fxBlastWeapon 1 [{ ap := 0, roll := 6 }], h.fromBlast = true) ∧
    (∀ (baseD : Nat) (shieldWall : Bool) (h : Hit), h.fromBlast = true →
      saveTargetFor baseD shieldWall true h = saveTargetFor baseD shieldWall false h)) :=
  ⟨by decide,
   C5_blast_multiplies_and_flags_every_hit fxBlastWeapon 1 [{ ap := 0, roll := 6 }]
     (JsVal.num 3) rfl rfl (by decide)⟩

/-! C3 -/

/-- C3: evaluation at the failing input. The clusters still overlap under the
-0.1 tolerance, the center-to-center offset is the axis-aligned unit vector
(so `Math.hypot(dx, dy) = 1` exactly), and the push-back moves the charged
cluster's center one inch while leaving its model positions untouched, so the
center/model offsets are no longer what they were — unlike the animated-move
frame and snap and the scout pre-move, which translate both together. -/
theorem C3_push_back_moves_center_without_models :
    areClustersColliding fxC3Charger fxC3Charged (-(1 / 10)) = true ∧
    ((1 : ℚ)) ^ 2 = (fxC3Charged.cxIn - fxC3Charger.cxIn) ^ 2 +
      (fxC3Charged.cyIn - fxC3Charger.cyIn) ^ 2 ∧
    (resolvePostChargeSeparation fxC3Charger fxC3Charged 1).cxIn
        = fxC3Charged.cxIn + 1 ∧
    (resolvePostChargeSeparation fxC3Charger fxC3Charged 1).models
        = fxC3Charged.models ∧
    centerModelOffsets (resolvePostChargeSeparation fxC3Charger fxC3Charged 1)
        ≠ centerModelOffsets fxC3Charged := by
  have hcol : areClustersColliding fxC3Charger fxC3Charged (-(1 / 10)) = true := by
    norm_num [areClustersColliding, getEffectiveRadius, fxC3Charger, fxC3Charged,
      fxMeleeAttacker, fxGruntDefender, DIA_IN]
  have hpush :
      resolvePostChargeSeparation fxC3Charger fxC3Charged 1 =
        { fxC3Charged with cxIn := 2, cyIn := 0, originXIn := 3 / 2,
                           originYIn := -(1 / 2) } := by
    simp only [resolvePostChargeSeparation, hcol, if_true]
    simp [fxC3Charger, fxC3Charged, fxMeleeAttacker, fxGruntDefender]
    norm_num
  refine ⟨hcol, ?_, ?_, ?_, ?_⟩
  · norm_num [fxC3Charger, fxC3Charged, fxMeleeAttacker, fxGruntDefender]
  · rw [hpush]; norm_num [fxC3Charged, fxGruntDefender]
  · rw [hpush]
  · rw [hpush]
    simp [centerModelOffsets, fxC3Charged, fxGruntDefender]
    norm_num

/-! C10 -/

/-- C10: a numeric damage argument to `applyWoundsToCluster` is exactly the
application of that many 1-wound packets; the melee path passes only the
summed total (3 for one unsaved Deadly(3) hit whose packet list was [3]), so
the melee strike kills all three one-wound defenders, while the shooting path
passes the packet [3] through unchanged and kills only one. -/
theorem C10_melee_sums_damage_into_unit_packets :
    (∀ (c : UnitCluster) (n : Nat),
      applyWoundsToCluster c (.num n) = applyWoundsToCluster c (.arr (List.replicate n 1))) ∧
    (gameRollAttackSequence fxMeleeAttackerSU fxDeadlyMelee fxGruntSU 3
        (.ctx true true false) false false [fxMeleeAttackerSU] [6, 2]).1.woundPackets
        = [3] ∧
    (meleeStrikeTotalDamage fxMeleeAttacker fxGruntSU 3 true false [6, 2]).1 = 3 ∧
    (meleeApplyStrikeDamage fxGruntDefender 3).currentModels = 0 ∧
    (shootApplyDamage fxGruntDefender [3]).currentModels = 2 :=
  ⟨fun _ _ => rfl, by decide, by decide, by decide, by decide⟩

/-! C4 -/

/-- The attacker fixture unit is a non-shaken presence within 3 inches of the
fixture objective. -/
lemma fxC4_attacker_present :
    0 < (fxC4Cache.attackers.filter (fun u =>
      !u.shaken && isUnitNearPoint u fxC4Objective.x fxC4Objective.y 3)).length := by
  norm_num [fxC4Cache, fxC4AttackerNear, fxMeleeAttacker, fxC4Objective,
    isUnitNearPoint, List.filter, List.any]

/-- The defender fixture unit is a non-shaken presence within 3 inches of the
fixture objective. -/
lemma fxC4_defender_present :
    0 < (fxC4Cache.defenders.filter (fun u =>
      !u.shaken && isUnitNearPoint u fxC4Objective.x fxC4Objective.y 3)).length := by
  norm_num [fxC4Cache, fxC4DefenderNear, fxGruntDefender, fxC4Objective,
    isUnitNearPoint, List.filter, List.any]

/-- C4 counterexample: an objective held by the attackers, with one non-shaken
unit of each side within 3 inches, loses its controller at the end-of-round
update — simultaneous presence does transfer control away from the holder. -/
theorem C4_contested_held_objective_counterexample :
    fxC4Objective.controller = some Side.attackers ∧
    0 < (fxC4Cache.attackers.filter (fun u =>
      !u.shaken && isUnitNearPoint u fxC4Objective.x fxC4Objective.y 3)).length ∧
    0 < (fxC4Cache.defenders.filter (fun u =>
      !u.shaken && isUnitNearPoint u fxC4Objective.x fxC4Objective.y 3)).length ∧
    (updateObjectiveController fxC4Cache fxC4Objective).controller = none := by
  refine ⟨rfl, fxC4_attacker_present, fxC4_defender_present, ?_⟩
  simp only [updateObjectiveController, fxC4_attacker_present, fxC4_defender_present]
  simp [fxC4Objective]

/-- C4 (amended): in the end-of-round update, simultaneous presence of
non-shaken units of both sides within 3 inches resets the objective's
controller to none, even when one side already held it; holding is sticky
only against absence of both sides. -/
theorem C4_simultaneous_presence_resets_controller (cache : ClusterCache) (obj : Objective)
    (hatt : 0 < (cache.attackers.filter (fun u =>
      !u.shaken && isUnitNearPoint u obj.x obj.y 3)).length)
    (hdef : 0 < (cache.defenders.filter (fun u =>
      !u.shaken && isUnitNearPoint u obj.x obj.y 3)).length) :
    (updateObjectiveController cache obj).controller = none := by
  simp only [updateObjectiveController, hatt, hdef]
  cases obj.controller <;> simp

/-! C1 -/

/-- Loadout refresh does not change the surviving model count. -/
lemma refreshLoadout_count (s : SubUnitState) :
    (refreshLoadout s).currentModelsInSubUnit = s.currentModelsInSubUnit := by
  unfold refreshLoadout
  split <;> rfl

/-- An index whose `getD` read has a surviving model is in range (the default
state has no model). -/
lemma lt_length_of_getD_count_pos {states : List SubUnitState} {i : Nat}
    (h : 0 < (states.getD i default).currentModelsInSubUnit) : i < states.length := by
  by_contra hge
  push_neg at hge
  rw [List.getD_eq_default _ _ hge] at h
  exact absurd h (by decide)

/-- Sum of an integer-valued map after a single in-range `set`. -/
lemma sum_map_set_int (f : SubUnitState → Int) :
    ∀ (l : List SubUnitState) (i : Nat) (a : SubUnitState), i < l.length →
      ((l.set i a).map f).sum = (l.map f).sum - f (l.getD i default) + f a
  | [], i, a, h => by simp at h
  | x :: xs, 0, a, _ => by
    simp only [List.set, List.map_cons, List.sum_cons, List.getD_cons_zero]
    ring
  | x :: xs, i + 1, a, h => by
    simp only [List.set, List.map_cons, List.sum_cons, List.getD_cons_succ]
    rw [sum_map_set_int f xs i a (by simpa using h)]
    ring

/-- One packet application preserves the equality between the running cluster
model count and the sum of sub-unit survivors. -/
lemma applyPacketTo_sum (packet : Nat) :
    ∀ (alloc : List Nat) (states : List SubUnitState) (cm : Int),
      cm = (states.map (fun s => (s.currentModelsInSubUnit : Int))).sum →
      (applyPacketTo states cm packet alloc).2 =
        ((applyPacketTo states cm packet alloc).1.map
          (fun s => (s.currentModelsInSubUnit : Int))).sum
  | [], states, cm, h => h
  | i :: rest, states, cm, h => by
    simp only [applyPacketTo]
    split
    · exact applyPacketTo_sum packet rest states cm h
    · rename_i hpos
      have hlt : i < states.length := lt_length_of_getD_count_pos (by omega)
      split
      · rw [sum_map_set_int _ states i _ hlt]
        simp only [refreshLoadout_count]
        omega
      · rw [sum_map_set_int _ states i _ hlt]
        simp only [refreshLoadout_count]
        omega

/-- The packet fold preserves the model-count/sub-unit-sum equality. -/
lemma foldl_packets_sum (alloc : List Nat) :
    ∀ (packets : List Nat) (states : List SubUnitState) (cm : Int),
      cm = (states.map (fun s => (s.currentModelsInSubUnit : Int))).sum →
      (packets.foldl (fun acc p => applyPacketTo acc.1 acc.2 p alloc) (states, cm)).2 =
        ((packets.foldl (fun acc p => applyPacketTo acc.1 acc.2 p alloc) (states, cm)).1.map
          (fun s => (s.currentModelsInSubUnit : Int))).sum
  | [], states, cm, h => h
  | p :: ps, states, cm, h => by
    simp only [List.foldl_cons]
    exact foldl_packets_sum alloc ps (applyPacketTo states cm p alloc).1
      (applyPacketTo states cm p alloc).2 (applyPacketTo_sum p alloc states cm h)

/-- The sum of sub-unit survivor counts is nonnegative. -/
lemma sum_counts_nonneg (l : List SubUnitState) :
    0 ≤ (l.map (fun s => (s.currentModelsInSubUnit : Int))).sum := by
  induction l with
  | nil => simp
  | cons x xs ih =>
    simp only [List.map_cons, List.sum_cons]
    omega

/-- The model-grid refresh does not change the cluster's model count. -/
lemma updateClusterCircles_currentModels (c : UnitCluster) :
    (updateClusterCircles c).currentModels = c.currentModels := by
  unfold updateClusterCircles
  by_cases h : c.currentModels ≤ 0 <;> simp [h]

/-- The model-grid refresh does not change the sub-unit states. -/
lemma updateClusterCircles_subUnitStates (c : UnitCluster) :
    (updateClusterCircles c).subUnitStates = c.subUnitStates := by
  unfold updateClusterCircles
  by_cases h : c.currentModels ≤ 0 <;> simp [h]

/-- The model-grid refresh does not change the cluster id. -/
lemma updateClusterCircles_id (c : UnitCluster) :
    (updateClusterCircles c).id = c.id := by
  unfold updateClusterCircles
  by_cases h : c.currentModels ≤ 0 <;> simp [h]

/-- C1: for every cluster and every wound-packet argument, if the cluster's
`currentModels` equals the sum of `currentModelsInSubUnit` over its sub-unit
states before `applyWoundsToCluster`, the equality still holds afterwards. -/
theorem C1_wound_application_invariant (c : UnitCluster) (packets : WoundArg)
    (h : c.currentModels = sumSubUnitModels c) :
    (applyWoundsToCluster c packets).currentModels =
      sumSubUnitModels (applyWoundsToCluster c packets) := by
  unfold applyWoundsToCluster
  set wp : List Nat :=
    (match packets with
     | .arr l => l
     | .num n => List.replicate n 1) with hwp
  set alloc := allocationOrder c.subUnitStates with halloc
  set stepped :=
    wp.foldl (fun acc p => applyPacketTo acc.1 acc.2 p alloc)
      (c.subUnitStates, c.currentModels) with hstepped
  have hsum : stepped.2 =
      (stepped.1.map (fun s => (s.currentModelsInSubUnit : Int))).sum := by
    rw [hstepped]
    exact foldl_packets_sum alloc wp c.subUnitStates c.currentModels h
  have hnn : 0 ≤ stepped.2 := by
    rw [hsum]
    exact sum_counts_nonneg _
  have hmax : max 0 stepped.2 = stepped.2 := max_eq_right hnn
  simp only [hmax, sumSubUnitModels]
  split
  · rw [updateClusterCircles_currentModels, updateClusterCircles_subUnitStates]
    exact hsum
  · exact hsum

/-- C1 witness: the invariant applied to the three-grunt cluster taking one
1-wound packet. -/
theorem C1_wound_application_invariant_witness :
    fxC1Cluster.currentModels = sumSubUnitModels fxC1Cluster ∧
    (applyWoundsToCluster fxC1Cluster (.arr [1])).currentModels =
      sumSubUnitModels (applyWoundsToCluster fxC1Cluster (.arr [1])) :=
  ⟨by decide, C1_wound_application_invariant fxC1Cluster (.arr [1]) (by decide)⟩

/-- C4 witness: the amended theorem applied to the contested held objective. -/
theorem C4_simultaneous_presence_resets_controller_witness :
    0 < (fxC4Cache.attackers.filter (fun u =>
      !u.shaken && isUnitNearPoint u fxC4Objective.x fxC4Objective.y 3)).length ∧
    0 < (fxC4Cache.defenders.filter (fun u =>
      !u.shaken && isUnitNearPoint u fxC4Objective.x fxC4Objective.y 3)).length ∧
    (updateObjectiveController fxC4Cache fxC4Objective).controller = none :=
  ⟨fxC4_attacker_present, fxC4_defender_present,
   C4_simultaneous_presence_resets_controller fxC4Cache fxC4Objective
     fxC4_attacker_present fxC4_defender_present⟩

/-! C7 -/

/-- C7 counterexample: at a round boundary where both sides report every unit
activated, the round advances and the activated and melee-fatigue flags are
cleared, but a shaken attacker keeps its shaken flag. -/
theorem C7_round_end_keeps_shaken_counterexample :
    (fxC7State.clusterCache.attackers.all (fun u => u.activated) &&
      fxC7State.clusterCache.defenders.all (fun u => u.activated)) = true ∧
    (finalizeAITurn fxC7State).currentRound = fxC7State.currentRound + 1 ∧
    ((finalizeAITurn fxC7State).clusterCache.attackers.map
      (fun u => (u.activated, u.shaken, u.hasFoughtInMeleeThisRound)))
      = [(false, true, false)] := by
  decide

/-- C7 (amended): when both sides report every unit activated, `finalizeAITurn`
advances the round and clears the `activated` and `hasFoughtInMeleeThisRound`
flags of every cluster on both sides; the `shaken` flag is left unchanged by
the round boundary (it is cleared only when the shaken unit takes an Idle
activation). -/
theorem C7_round_end_resets_activated_and_fatigue (s : TurnState)
    (hcur : (s.clusterCache.get s.currentTurn).all (fun u => u.activated) = true)
    (hopp : (s.clusterCache.get s.currentTurn.opposite).all (fun u => u.activated) = true) :
    (finalizeAITurn s).currentRound = s.currentRound + 1 ∧
    (finalizeAITurn s).clusterCache.attackers =
      s.clusterCache.attackers.map (fun u =>
        { u with activated := false, hasFoughtInMeleeThisRound := false }) ∧
    (finalizeAITurn s).clusterCache.defenders =
      s.clusterCache.defenders.map (fun u =>
        { u with activated := false, hasFoughtInMeleeThisRound := false }) := by
  unfold finalizeAITurn
  simp only [hcur, hopp, if_true]
  cases s.playerWhoFinishedLastRoundFirst <;> simp

/-- C7 witness: the amended theorem applied to the two-cluster round-end
state. -/
theorem C7_round_end_resets_activated_and_fatigue_witness :
    (fxC7State.clusterCache.get fxC7State.currentTurn).all (fun u => u.activated) = true ∧
    ((finalizeAITurn fxC7State).currentRound = fxC7State.currentRound + 1 ∧
     (finalizeAITurn fxC7State).clusterCache.attackers =
       fxC7State.clusterCache.attackers.map (fun u =>
         { u with activated := false, hasFoughtInMeleeThisRound := false }) ∧
     (finalizeAITurn fxC7State).clusterCache.defenders =
       fxC7State.clusterCache.defenders.map (fun u =>
         { u with activated := false, hasFoughtInMeleeThisRound := false })) :=
  ⟨by decide,
   C7_round_end_resets_activated_and_fatigue fxC7State (by decide) (by decide)⟩

/-! C9 -/

/-- One packet application never increases the running model count. -/
lemma applyPacketTo_snd_le (packet : Nat) :
    ∀ (alloc : List Nat) (states : List SubUnitState) (cm : Int),
      (applyPacketTo states cm packet alloc).2 ≤ cm
  | [], _, cm => le_refl cm
  | i :: rest, states, cm => by
    simp only [applyPacketTo]
    split
    · exact applyPacketTo_snd_le packet rest states cm
    · split <;> simp

/-- The packet fold never increases the running model count. -/
lemma foldl_packets_snd_le (alloc : List Nat) :
    ∀ (packets : List Nat) (states : List SubUnitState) (cm : Int),
      (packets.foldl (fun acc p => applyPacketTo acc.1 acc.2 p alloc) (states, cm)).2 ≤ cm
  | [], _, cm => le_refl cm
  | p :: ps, states, cm => by
    simp only [List.foldl_cons]
    exact le_trans
      (foldl_packets_snd_le alloc ps (applyPacketTo states cm p alloc).1
        (applyPacketTo states cm p alloc).2)
      (applyPacketTo_snd_le p alloc states cm)

/-- Wound application on an already emptied cluster leaves the count at 0. -/
lemma applyWoundsToCluster_cm_zero (c : UnitCluster) (p : WoundArg)
    (h : c.currentModels ≤ 0) : (applyWoundsToCluster c p).currentModels = 0 := by
  unfold applyWoundsToCluster
  set wp : List Nat :=
    (match p with
     | .arr l => l
     | .num n => List.replicate n 1) with hwp
  set alloc := allocationOrder c.subUnitStates with halloc
  set stepped :=
    wp.foldl (fun acc p => applyPacketTo acc.1 acc.2 p alloc)
      (c.subUnitStates, c.currentModels) with hstepped
  have hle : stepped.2 ≤ c.currentModels := by
    rw [hstepped]
    exact foldl_packets_snd_le alloc wp c.subUnitStates c.currentModels
  have hmax : max 0 stepped.2 = 0 := by omega
  simp only [hmax]
  norm_num

/-- The conditional grid refresh keeps the cluster id. -/
lemma ite_updateClusterCircles_id (cond : Prop) [Decidable cond] (u : UnitCluster) :
    (if cond then updateClusterCircles u else u).id = u.id := by
  split
  · exact updateClusterCircles_id u
  · rfl

/-- Wound application does not change the cluster id. -/
lemma applyWoundsToCluster_id (c : UnitCluster) (p : WoundArg) :
    (applyWoundsToCluster c p).id = c.id := by
  unfold applyWoundsToCluster
  exact ite_updateClusterCircles_id _ _

/-- A conditional wound application on an emptied cluster keeps it at 0. -/
lemma ite_applyWounds_cm_zero (cond : Prop) [Decidable cond] (c : UnitCluster)
    (p : WoundArg) (h : c.currentModels = 0) :
    (if cond then applyWoundsToCluster c p else c).currentModels = 0 := by
  split
  · exact applyWoundsToCluster_cm_zero c _ (by omega)
  · exact h

/-- A conditional wound application keeps the cluster id. -/
lemma ite_applyWounds_id (cond : Prop) [Decidable cond] (c : UnitCluster)
    (p : WoundArg) : (if cond then applyWoundsToCluster c p else c).id = c.id := by
  split
  · exact applyWoundsToCluster_id c _
  · rfl

/-- The Hold-the-Line conversion keeps an emptied cluster at 0 models. -/
lemma moraleHoldTheLine_cm_zero (c : UnitCluster) (f : Bool) (dice : List Nat)
    (h : c.currentModels = 0) : (moraleHoldTheLine c f dice).1.currentModels = 0 := by
  unfold moraleHoldTheLine
  split
  · exact ite_applyWounds_cm_zero _ _ _ h
  · exact h

/-- The Hold-the-Line conversion does not change the cluster id. -/
lemma moraleHoldTheLine_id (c : UnitCluster) (f : Bool) (dice : List Nat) :
    (moraleHoldTheLine c f dice).1.id = c.id := by
  unfold moraleHoldTheLine
  split
  · exact ite_applyWounds_id _ _ _
  · rfl

/-- The final morale outcome keeps an emptied cluster at 0 models. -/
lemma moraleFinalOutcome_cm_zero (c : UnitCluster) (cache : ClusterCache)
    (m f : Bool) (h : c.currentModels = 0) :
    (moraleFinalOutcome c cache m f).1.currentModels = 0 := by
  unfold moraleFinalOutcome
  split
  · split
    · split
      · rfl
      · exact h
    · exact h
  · exact h

/-- The final morale outcome does not change the cluster id. -/
lemma moraleFinalOutcome_id (c : UnitCluster) (cache : ClusterCache) (m f : Bool) :
    (moraleFinalOutcome c cache m f).1.id = c.id := by
  unfold moraleFinalOutcome
  split
  · split
    · split
      · rfl
      · rfl
    · rfl
  · rfl

/-- Removal from a roster keeps each remaining list a sublist of the
original. -/
lemma removeClusterFromSide_get_mem {cache : ClusterCache} {s t : Side} {id : Nat}
    {u : UnitCluster} (hu : u ∈ (removeClusterFromSide cache s id).get t) :
    u ∈ cache.get t := by
  cases s <;> cases t <;>
    simp only [removeClusterFromSide, ClusterCache.get] at hu ⊢ <;>
    first
      | exact (List.mem_filter.mp hu).1
      | exact hu

/-- After removal from its own side, no roster entry of that side carries the
removed id. -/
lemma removeClusterFromSide_get_self {cache : ClusterCache} {s : Side} {id : Nat}
    {u : UnitCluster} (hu : u ∈ (removeClusterFromSide cache s id).get s) :
    u.id ≠ id := by
  cases s <;>
    simp only [removeClusterFromSide, ClusterCache.get] at hu <;>
    · have := (List.mem_filter.mp hu).2
      simpa using this

/-- The final morale outcome only ever removes roster entries. -/
lemma moraleFinalOutcome_cache_mem {c : UnitCluster} {cache : ClusterCache}
    {m f : Bool} {t : Side} {u : UnitCluster}
    (hu : u ∈ ((moraleFinalOutcome c cache m f).2).get t) : u ∈ cache.get t := by
  unfold moraleFinalOutcome at hu
  split at hu
  · split at hu
    · split at hu
      · exact removeClusterFromSide_get_mem hu
      · exact hu
    · exact hu
  · exact hu

/-- The roster lists of a write-back are the element-wise replacements. -/
lemma syncCluster_get (cache : ClusterCache) (c : UnitCluster) (t : Side) :
    (ClusterCache.syncCluster cache c).get t =
      (cache.get t).map (fun u => if u.id == c.id then c else u) := by
  cases t <;> rfl

/-- A write-back of a cluster whose id is absent from a roster list leaves
that list free of the id. -/
lemma syncCluster_get_id_ne {cache : ClusterCache} {c : UnitCluster} {t : Side}
    (h : ∀ u ∈ cache.get t, u.id ≠ c.id) :
    ∀ u ∈ (ClusterCache.syncCluster cache c).get t, u.id ≠ c.id := by
  intro u hu
  rw [syncCluster_get] at hu
  obtain ⟨v, hv, rfl⟩ := List.mem_map.mp hu
  have hne := h v hv
  simp [hne]

/-- C9: a unit that is already shaken and still has models automatically
fails the morale test and is removed outright — after `performMoraleTest` its
`currentModels` is 0 and no entry of its side's roster carries its id —
whatever the dice and whether the test is a melee or a non-melee one. -/
theorem C9_shaken_unit_autofails_and_is_removed (unitCluster : UnitCluster)
    (cache : ClusterCache) (isMeleeTest : Bool) (dice : List Nat)
    (hshaken : unitCluster.shaken = true) (hpos : 0 < unitCluster.currentModels) :
    (performMoraleTest unitCluster cache isMeleeTest dice).1.currentModels = 0 ∧
    ∀ u ∈ ((performMoraleTest unitCluster cache isMeleeTest dice).2.1).get
        (sideOfClusterInCache cache unitCluster), u.id ≠ unitCluster.id := by
  have hr1 : moralePrimary unitCluster cache dice =
      ({ unitCluster with currentModels := 0 },
        removeClusterFromSide cache (sideOfClusterInCache cache unitCluster)
          unitCluster.id, dice, true) := by
    unfold moralePrimary
    rw [if_pos hshaken]
  unfold performMoraleTest
  rw [if_neg (by omega)]
  simp only [hr1]
  set c1 : UnitCluster := { unitCluster with currentModels := 0 } with hc1
  set cache1 := removeClusterFromSide cache (sideOfClusterInCache cache unitCluster)
    unitCluster.id with hcache1
  set r2 := moraleFearless c1 true dice with hr2
  set r3 := moraleHoldTheLine c1 r2.1 r2.2 with hr3
  set r4 := moraleFinalOutcome r3.1 cache1 isMeleeTest r3.2.1 with hr4
  have hc1cm : c1.currentModels = 0 := rfl
  have hr3cm : r3.1.currentModels = 0 := by
    rw [hr3]
    exact moraleHoldTheLine_cm_zero c1 r2.1 r2.2 hc1cm
  have hr4cm : r4.1.currentModels = 0 := by
    rw [hr4]
    exact moraleFinalOutcome_cm_zero r3.1 cache1 isMeleeTest r3.2.1 hr3cm
  have hid : r4.1.id = unitCluster.id := by
    rw [hr4, moraleFinalOutcome_id, hr3, moraleHoldTheLine_id]
  refine ⟨hr4cm, ?_⟩
  intro u hu
  have hsub : ∀ v ∈ (r4.2).get (sideOfClusterInCache cache unitCluster),
      v.id ≠ unitCluster.id := by
    intro v hv
    have hv1 : v ∈ cache1.get (sideOfClusterInCache cache unitCluster) := by
      rw [hr4] at hv
      exact moraleFinalOutcome_cache_mem hv
    rw [hcache1] at hv1
    exact removeClusterFromSide_get_self hv1
  have := syncCluster_get_id_ne (c := r4.1)
    (fun v hv => by rw [hid]; exact hsub v hv) u hu
  rw [hid] at this
  exact this

/-- C9 witness: the shaken fixture cluster is removed from the attacker
roster and zeroed, here on a non-melee test with an arbitrary die stream. -/
theorem C9_shaken_unit_autofails_and_is_removed_witness :
    fxC9Shaken.shaken = true ∧ 0 < fxC9Shaken.currentModels ∧
    ((performMoraleTest fxC9Shaken fxC9Cache false [2, 2, 2, 2]).1.currentModels = 0 ∧
     ∀ u ∈ ((performMoraleTest fxC9Shaken fxC9Cache false [2, 2, 2, 2]).2.1).get
        (sideOfClusterInCache fxC9Cache fxC9Shaken), u.id ≠ fxC9Shaken.id) :=
  ⟨rfl, by decide,
   C9_shaken_unit_autofails_and_is_removed fxC9Shaken fxC9Cache false [2, 2, 2, 2]
     rfl (by decide)⟩

end OPR
